import Mathlib

/-!
Verification development for `src/code/nlp_utils/model.py` of
TUM_Praktikum_NLP_Explainability.

The file defines three PyTorch-Lightning model classes:
`BaseModel` (DistilBERT + categorical features, score regression),
`BiLSTMModel` (embedding + BiLSTM + categorical features, score regression) and
`CustomDistilBertModel` (DistilBERT, 4-class stance classification).

We shallowly embed the tensor data model (batched matrices over `ℚ`),
the layers created in each `__init__`, and the `forward`,
`training_step` / `validation_step` and `configure_optimizers` methods.
Pretrained / library-internal components (the DistilBERT encoder, the LSTM
cell arithmetic) are modelled as abstract functions carried in the model
record together with their parameter lists, exactly as the Python code
treats them: it never looks inside them, it only calls them, freezes their
parameters, and reads their config fields.
-/

/-- A vector of rationals: one feature row. -/
abbrev Vec := List ℚ

/-- A batched 2-d tensor `(bs, features)`: a list of rows. -/
abbrev Mat := List Vec

/-- A batched 3-d tensor `(bs, seq_len, dim)`. -/
abbrev Mat3 := List Mat

/-- `shape2 xs bs c`: `xs` is a `(bs, c)` tensor. -/
def shape2 (xs : Mat) (bs c : Nat) : Prop :=
  xs.length = bs ∧ ∀ row ∈ xs, row.length = c

/-- `shape3 xs bs s c`: `xs` is a `(bs, s, c)` tensor. -/
def shape3 (xs : Mat3) (bs s c : Nat) : Prop :=
  xs.length = bs ∧ ∀ m ∈ xs, m.length = s ∧ ∀ row ∈ m, row.length = c

instance (xs : Mat) (bs c : Nat) : Decidable (shape2 xs bs c) := by
  unfold shape2; infer_instance

instance (xs : Mat3) (bs s c : Nat) : Decidable (shape3 xs bs s c) := by
  unfold shape3; infer_instance

/-- Dot product, as the numeric library computes a matvec row. -/
def dot (a b : Vec) : ℚ := (List.zipWith (fun x y => x * y) a b).sum

/-- One learnable tensor with its autograd flag (a `torch.nn.Parameter`). -/
structure Param where
  data : List ℚ
  requires_grad : Bool
deriving DecidableEq

/-- A `torch.nn.Linear(in_features, out_features)` layer: weight of shape
`(out_features, in_features)`, bias of shape `(out_features)`, and the
autograd flags of the two parameters. -/
structure Linear where
  weight : Mat
  bias : Vec
  weight_rg : Bool
  bias_rg : Bool
deriving DecidableEq

/-- Construct `nn.Linear(inF, outF)`: weight `(outF, inF)` and bias `(outF)`
from the (random) initializer values `wi`, `bi`; freshly created parameters
have `requires_grad = True` by library default. -/
def mkLinear (inF outF : Nat) (wi : Nat → Nat → ℚ) (bi : Nat → ℚ) : Linear :=
  { weight := (List.range outF).map (fun i => (List.range inF).map (wi i))
    bias := (List.range outF).map bi
    weight_rg := true
    bias_rg := true }

/-- Apply a linear layer to one row: `W x + b`. -/
def Linear.applyVec (l : Linear) (x : Vec) : Vec :=
  List.zipWith (fun w b => dot w x + b) l.weight l.bias

/-- Apply a linear layer to a batch (row-wise). -/
def Linear.apply (l : Linear) (xs : Mat) : Mat := xs.map l.applyVec

/-- The two parameters of a linear layer, in `torch` registration order. -/
def Linear.params (l : Linear) : List Param :=
  [⟨l.weight.flatten, l.weight_rg⟩, ⟨l.bias, l.bias_rg⟩]

/-- `torch.nn.ReLU` on a row. -/
def reluVec (x : Vec) : Vec := x.map (fun a => max a 0)

/-- `torch.nn.ReLU` on a batch. -/
def reluMat (xs : Mat) : Mat := xs.map reluVec

/-- Map with the element index, counting from `i`. -/
def mapIdxRec (f : Nat → α → β) : Nat → List α → List β
  | _, [] => []
  | i, a :: as => f i a :: mapIdxRec f (i + 1) as

/-- `torch.nn.Dropout` applied with a realized elementwise multiplier `μ`:
in eval mode `μ i j = 1`, in train mode `μ i j` is `m/(1-p)` for the sampled
Bernoulli mask `m ∈ {0,1}`.  The multiplier is supplied by the framework at
call time; the layer itself only stores the rate. -/
def dropoutApply (μ : Nat → Nat → ℚ) (xs : Mat) : Mat :=
  mapIdxRec (fun i row => mapIdxRec (fun j a => μ i j * a) 0 row) 0 xs

/-- `torch.cat((a, b), 1)`: concatenation along the feature dimension. -/
def hcat (a b : Mat) : Mat := List.zipWith (fun x y => x ++ y) a b

/-- `hidden_state[:, 0]`: the encoder hidden state at sequence position 0. -/
def selectPos0 (xs : Mat3) : Mat := xs.map (fun m => m.headD [])

-- Shape lemmas for the primitive operations.

theorem length_applyVec (l : Linear) (x : Vec) (o : Nat)
    (hw : l.weight.length = o) (hb : l.bias.length = o) :
    (l.applyVec x).length = o := by
  simp [Linear.applyVec, List.length_zipWith, hw, hb]

theorem shape2_linear_apply (l : Linear) (xs : Mat) (o : Nat)
    (hw : l.weight.length = o) (hb : l.bias.length = o) :
    shape2 (l.apply xs) xs.length o := by
  refine ⟨by simp [Linear.apply], ?_⟩
  intro row hrow
  simp only [Linear.apply, List.mem_map] at hrow
  obtain ⟨x, _, rfl⟩ := hrow
  exact length_applyVec l x o hw hb

theorem shape2_reluMat (xs : Mat) (bs c : Nat) (h : shape2 xs bs c) :
    shape2 (reluMat xs) bs c := by
  obtain ⟨hl, hr⟩ := h
  refine ⟨by simp [reluMat, hl], ?_⟩
  intro row hrow
  simp only [reluMat, List.mem_map] at hrow
  obtain ⟨x, hx, rfl⟩ := hrow
  simp [reluVec, hr x hx]

theorem length_mapIdxRec (f : Nat → α → β) (i : Nat) (l : List α) :
    (mapIdxRec f i l).length = l.length := by
  induction l generalizing i with
  | nil => rfl
  | cons x t ih => simp [mapIdxRec, ih]

theorem mem_mapIdxRec {f : Nat → α → β} {i : Nat} {l : List α} {b : β}
    (h : b ∈ mapIdxRec f i l) : ∃ j a, a ∈ l ∧ b = f j a := by
  induction l generalizing i with
  | nil => simp [mapIdxRec] at h
  | cons x t ih =>
      simp only [mapIdxRec, List.mem_cons] at h
      rcases h with rfl | h
      · exact ⟨i, x, by simp, rfl⟩
      · obtain ⟨j, a, ha, rfl⟩ := ih h
        exact ⟨j, a, by simp [ha], rfl⟩

theorem shape2_dropoutApply (μ : Nat → Nat → ℚ) (xs : Mat) (bs c : Nat)
    (h : shape2 xs bs c) : shape2 (dropoutApply μ xs) bs c := by
  obtain ⟨hl, hr⟩ := h
  refine ⟨by simp [dropoutApply, length_mapIdxRec, hl], ?_⟩
  intro row hrow
  obtain ⟨j, a, ha, rfl⟩ := mem_mapIdxRec hrow
  rw [length_mapIdxRec]
  exact hr a ha

theorem shape2_hcat (a b : Mat) (bs c1 c2 : Nat)
    (ha : shape2 a bs c1) (hb : shape2 b bs c2) :
    shape2 (hcat a b) bs (c1 + c2) := by
  obtain ⟨hal, har⟩ := ha
  obtain ⟨hbl, hbr⟩ := hb
  refine ⟨by simp [hcat, List.length_zipWith, hal, hbl], ?_⟩
  intro row hrow
  simp only [hcat] at hrow
  rw [List.mem_iff_get] at hrow
  obtain ⟨i, hi⟩ := hrow
  have hil : i.1 < a.length := by
    have := i.2; simp [hcat, List.length_zipWith] at this; omega
  have hir : i.1 < b.length := by
    have := i.2; simp [hcat, List.length_zipWith] at this; omega
  rw [← hi]
  have : (List.zipWith (fun x y => x ++ y) a b).get i =
      a.get ⟨i.1, hil⟩ ++ b.get ⟨i.1, hir⟩ := by
    simp [List.getElem_zipWith]
  rw [this]
  rw [List.length_append]
  rw [har _ (List.get_mem _ _ _), hbr _ (List.get_mem _ _ _)]

theorem shape2_selectPos0 (xs : Mat3) (bs s c : Nat) (hs : 0 < s)
    (h : shape3 xs bs s c) : shape2 (selectPos0 xs) bs c := by
  obtain ⟨hl, hr⟩ := h
  refine ⟨by simp [selectPos0, hl], ?_⟩
  intro row hrow
  simp only [selectPos0, List.mem_map] at hrow
  obtain ⟨m, hm, rfl⟩ := hrow
  obtain ⟨hml, hmr⟩ := hr m hm
  cases m with
  | nil => simp at hml; omega
  | cons x t => exact hmr x (by simp)

theorem mkLinear_weight_length (inF outF : Nat) (wi : Nat → Nat → ℚ)
    (bi : Nat → ℚ) : (mkLinear inF outF wi bi).weight.length = outF := by
  simp [mkLinear]

theorem mkLinear_bias_length (inF outF : Nat) (wi : Nat → Nat → ℚ)
    (bi : Nat → ℚ) : (mkLinear inF outF wi bi).bias.length = outF := by
  simp [mkLinear]

/-!
The configuration dictionary.  `create_config` (in `nlp_utils/config.py`,
outside the modelled file) merges user entries with defaults; the
constructors receive its result, so we quantify over an arbitrary produced
config.  The record lists exactly the entries `model.py` reads. -/

structure Config where
  learning_rate : ℚ
  vocab_size : Nat
  category_encoded_length : Nat
  category_encoder_out : Nat
  embedding_dim : Nat
  bilstm_hidden_dim : Nat
deriving DecidableEq

/-- The pretrained `DistilBertModel` returned by
`DistilBertModel.from_pretrained("distilbert-base-uncased")`.  The code only
calls it on `(input_ids, attention_mask)`, freezes its parameters, and reads
`config.dim`, `config.hidden_size`, `config.vocab_size` and
`config.seq_classif_dropout`; we model the encoder as that interface.  In
`DistilBertConfig` the attribute `hidden_size` is an alias of `dim`, which
`DistilBert.hidden_size` reflects. -/
structure DistilBert where
  dim : Nat
  vocab_size : Nat
  seq_classif_dropout : ℚ
  run : List (List Nat) → List (List Nat) → Mat3
  params : List Param

/-- `bert.config.hidden_size`: alias of `dim` in `DistilBertConfig`. -/
def DistilBert.hidden_size (b : DistilBert) : Nat := b.dim

/-- The `for param in self.bert.parameters(): param.requires_grad = False`
loop of both DistilBERT-based constructors. -/
def freeze (b : DistilBert) : DistilBert :=
  { b with params := b.params.map (fun p => { p with requires_grad := false }) }

/-- Lines 32-34 / 246-247: overwrite `config["vocab_size"]` with the
vocabulary size of the encoder when it is 0. -/
def initConfigUpdate (bertVocab : Nat) (c : Config) : Config :=
  if c.vocab_size = 0 then { c with vocab_size := bertVocab } else c

/-- The tokenized text batch passed to the encoder:
`encoded_text["input_ids"]` and `encoded_text["attention_mask"]`. -/
structure EncodedText where
  input_ids : List (List Nat)
  attention_mask : List (List Nat)

/-- The `distilbert_tail` head: `nn.Sequential(nn.Linear(dim, dim),
nn.ReLU(), nn.Dropout(seq_classif_dropout))`. -/
structure Tail where
  lin : Linear
  dropout_p : ℚ
deriving DecidableEq

/-- Apply the tail; `μ` is the realized dropout multiplier (1 in eval mode). -/
def Tail.apply (t : Tail) (μ : Nat → Nat → ℚ) (xs : Mat) : Mat :=
  dropoutApply μ (reluMat (t.lin.apply xs))

/-- The `category_encoder` head:
`nn.Sequential(nn.Linear(category_encoded_length, category_encoder_out),
nn.ReLU())`. -/
structure CatEncoder where
  lin : Linear
deriving DecidableEq

/-- Apply the category encoder. -/
def CatEncoder.apply (e : CatEncoder) (xs : Mat) : Mat := reluMat (e.lin.apply xs)

/-- Fresh random initializer values for the layers a constructor creates
(`torch` draws them when each `nn.Linear` etc. is built). -/
structure LayerInit where
  tailW : Nat → Nat → ℚ
  tailB : Nat → ℚ
  catW : Nat → Nat → ℚ
  catB : Nat → ℚ
  clsW : Nat → Nat → ℚ
  clsB : Nat → ℚ

/-- The `BaseModel` object after `__init__`. -/
structure BaseModel where
  config : Config
  learning_rate : ℚ
  bert : DistilBert
  distilbert_tail : Tail
  category_encoder : CatEncoder
  classifier : Linear

/-- `BaseModel.__init__` (lines 17-55), after `create_config` has produced
`config` and `from_pretrained` has produced `pre`: store the config and
learning rate, patch `vocab_size` if 0, freeze the encoder, and create the
`distilbert_tail`, `category_encoder` and `classifier` layers with the
dimensions taken from the encoder config and the stored config. -/
def BaseModel.init (config : Config) (pre : DistilBert) (r : LayerInit) :
    BaseModel :=
  { config := initConfigUpdate pre.vocab_size config
    learning_rate := config.learning_rate
    bert := freeze pre
    distilbert_tail :=
      { lin := mkLinear pre.dim pre.dim r.tailW r.tailB
        dropout_p := pre.seq_classif_dropout }
    category_encoder :=
      { lin := mkLinear config.category_encoded_length
          config.category_encoder_out r.catW r.catB }
    classifier := mkLinear (pre.hidden_size + config.category_encoder_out) 1
      r.clsW r.clsB }

/-- `BaseModel.forward` (lines 57-72), step for step:
run the encoder, take `hidden_state = bert_output[0]`, pool position 0,
apply the tail, encode the categories, concatenate along dim 1, classify. -/
def BaseModel.forward (m : BaseModel) (μ : Nat → Nat → ℚ)
    (encoded_text : EncodedText) (category_vectors : Mat) : Mat :=
  let bert_output := m.bert.run encoded_text.input_ids encoded_text.attention_mask
  let hidden_state := bert_output
  let pooled_output := selectPos0 hidden_state
  let pooled_output := m.distilbert_tail.apply μ pooled_output
  let categories_encoded := m.category_encoder.apply category_vectors
  let concat := hcat pooled_output categories_encoded
  m.classifier.apply concat

/-- `self.parameters()` of a `BaseModel`, in module registration order:
encoder parameters, then tail, category encoder and classifier. -/
def BaseModel.parameters (m : BaseModel) : List Param :=
  m.bert.params ++ m.distilbert_tail.lin.params ++
    m.category_encoder.lin.params ++ m.classifier.params

/-!  The `CustomDistilBertModel` (lines 221-348). -/

/-- The `CustomDistilBertModel` object after `__init__`.  Its head is just
`distilbert_tail` and a `classifier`; there is no category encoder. -/
structure CustomDistilBertModel where
  config : Config
  learning_rate : ℚ
  num_classes : Nat
  bert : DistilBert
  distilbert_tail : Tail
  classifier : Linear

/-- `CustomDistilBertModel.__init__` (lines 226-261): same pattern as
`BaseModel` but `num_classes = 4`, no category encoder, and the classifier
maps `hidden_size` directly to `num_classes`. -/
def CustomDistilBertModel.init (config : Config) (pre : DistilBert)
    (r : LayerInit) : CustomDistilBertModel :=
  { config := initConfigUpdate pre.vocab_size config
    learning_rate := config.learning_rate
    num_classes := 4
    bert := freeze pre
    distilbert_tail :=
      { lin := mkLinear pre.dim pre.dim r.tailW r.tailB
        dropout_p := pre.seq_classif_dropout }
    classifier := mkLinear pre.hidden_size 4 r.clsW r.clsB }

/-- `CustomDistilBertModel.forward` (lines 263-273): encoder under
`torch.no_grad()` (no effect on the computed values), pool position 0,
tail, classifier.  It takes only `encoded_text`. -/
def CustomDistilBertModel.forward (m : CustomDistilBertModel)
    (μ : Nat → Nat → ℚ) (encoded_text : EncodedText) : Mat :=
  let bert_output := m.bert.run encoded_text.input_ids encoded_text.attention_mask
  let hidden_state := bert_output
  let pooled_output := selectPos0 hidden_state
  let pooled_output := m.distilbert_tail.apply μ pooled_output
  m.classifier.apply pooled_output

/-- `self.parameters()` of a `CustomDistilBertModel`. -/
def CustomDistilBertModel.parameters (m : CustomDistilBertModel) : List Param :=
  m.bert.params ++ m.distilbert_tail.lin.params ++ m.classifier.params

/-!  The `BiLSTMModel` (lines 124-218). -/

/-- A `torch.nn.Embedding(vocab_size, embedding_dim)` table. -/
structure Embedding where
  weight : Mat
  weight_rg : Bool

/-- Construct `nn.Embedding(num, dim)`: weight of shape `(num, dim)` from
random initializer values, `requires_grad = True` by default. -/
def mkEmbedding (num dim : Nat) (wi : Nat → Nat → ℚ) : Embedding :=
  { weight := (List.range num).map (fun i => (List.range dim).map (wi i))
    weight_rg := true }

/-- Embedding lookup on a batch of token-id sequences. -/
def Embedding.apply (e : Embedding) (ids : List (List Nat)) : Mat3 :=
  ids.map (fun s => s.map (fun i => e.weight.getD i []))

/-- The `nn.LSTM(input_size=embedding_dim, hidden_size=bilstm_hidden_dim,
bidirectional=True, batch_first=True)` layer.  The code never inspects the
cell arithmetic; it calls the layer on the embedded batch and uses the
output sequence, so we carry the output function of the layer and its fresh
(trainable) parameters abstractly. -/
structure LSTM where
  input_size : Nat
  hidden_size : Nat
  bidirectional : Bool
  run : Mat3 → Mat3
  params : List Param

/-- The `BiLSTMModel` object after `__init__` (lines 129-159). -/
structure BiLSTMModel where
  config : Config
  learning_rate : ℚ
  embedding : Embedding
  category_encoder : CatEncoder
  bilstm : LSTM
  classifier : Linear

/-- `BiLSTMModel.__init__`: store config and learning rate, create the
embedding table, category encoder, BiLSTM and classifier
(`bilstm_hidden_dim * 2 + category_encoder_out → 1`).  `lstmRun` and
`lstmParams` stand for the freshly initialized library layer. -/
def BiLSTMModel.init (config : Config) (r : LayerInit)
    (embW : Nat → Nat → ℚ) (lstmRun : Mat3 → Mat3) (lstmInit : List (List ℚ)) :
    BiLSTMModel :=
  { config := config
    learning_rate := config.learning_rate
    embedding := mkEmbedding config.vocab_size config.embedding_dim embW
    category_encoder :=
      { lin := mkLinear config.category_encoded_length
          config.category_encoder_out r.catW r.catB }
    bilstm :=
      { input_size := config.embedding_dim
        hidden_size := config.bilstm_hidden_dim
        bidirectional := true
        run := lstmRun
        params := lstmInit.map (fun d => ⟨d, true⟩) }
    classifier := mkLinear (config.bilstm_hidden_dim * 2 +
      config.category_encoder_out) 1 r.clsW r.clsB }

/-- `lstm_out.shape[1]`: the sequence length of a `(bs, seq, h)` tensor. -/
def dim1 (xs : Mat3) : Nat := (xs.headD []).length

/-- `lstm_out[:, lstm_out.shape[1] - 1, :]`: the last time step. -/
def selectLast (xs : Mat3) : Mat := xs.map (fun m => m.getD (dim1 xs - 1) [])

/-- `BiLSTMModel.forward` (lines 161-171): embed, run the BiLSTM, encode the
categories, take the last time step, concatenate along dim 1, classify. -/
def BiLSTMModel.forward (m : BiLSTMModel) (encoded_texts : List (List Nat))
    (encoded_classes : Mat) : Mat :=
  let embeddings := m.embedding.apply encoded_texts
  let lstm_out := m.bilstm.run embeddings
  let categories_encoded := m.category_encoder.apply encoded_classes
  let forward := selectLast lstm_out
  let combined := hcat forward categories_encoded
  m.classifier.apply combined

/-- `self.parameters()` of a `BiLSTMModel`, registration order. -/
def BiLSTMModel.parameters (m : BiLSTMModel) : List Param :=
  ⟨m.embedding.weight.flatten, m.embedding.weight_rg⟩ ::
    (m.category_encoder.lin.params ++ m.bilstm.params ++ m.classifier.params)

/-!  Losses and lifecycle hooks. -/

/-- `t.view(-1)` on a 2-d tensor: flatten to 1-d. -/
def viewFlat (xs : Mat) : Vec := xs.flatten

/-- `y.unsqueeze(1)`: `(bs,)` to `(bs, 1)`. -/
def unsqueeze1 (y : Vec) : Mat := y.map (fun a => [a])

/-- Number of elements of a 2-d tensor. -/
def numel (a : Mat) : Nat := (a.map List.length).sum

/-- `F.mse_loss` with the default mean reduction, on 1-d tensors. -/
def mse_loss1 (a b : Vec) : ℚ :=
  (List.zipWith (fun x y => (x - y) ^ 2) a b).sum / (a.length : ℚ)

/-- `F.mse_loss` with the default mean reduction, on 2-d tensors. -/
def mse_loss2 (a b : Mat) : ℚ :=
  (List.zipWith (fun r s => (List.zipWith (fun x y => (x - y) ^ 2) r s).sum)
    a b).sum / (numel a : ℚ)

/-- The loss of `BaseModel.training_step` (line 84):
`F.mse_loss(y_hat.view(-1), y.view(-1))`; `y.view(-1)` of the 1-d target
is `y` itself. -/
def BaseModel.trainLoss (y_hat : Mat) (y : Vec) : ℚ := mse_loss1 (viewFlat y_hat) y

/-- The loss of `BaseModel.validation_step` (line 108):
`F.mse_loss(y_hat, y.unsqueeze(1))`. -/
def BaseModel.valLoss (y_hat : Mat) (y : Vec) : ℚ := mse_loss2 y_hat (unsqueeze1 y)

/-- A `torch.optim.Adam` optimizer as `configure_optimizers` builds it:
the parameter list it was handed and the learning rate. -/
structure Adam where
  params : List Param
  lr : ℚ

/-- `BaseModel.configure_optimizers` (lines 119-121):
`torch.optim.Adam(self.parameters(), lr=self.learning_rate)`. -/
def BaseModel.configure_optimizers (m : BaseModel) : Adam :=
  { params := m.parameters, lr := m.learning_rate }

/-- `BiLSTMModel.configure_optimizers` (lines 216-218). -/
def BiLSTMModel.configure_optimizers (m : BiLSTMModel) : Adam :=
  { params := m.parameters, lr := m.learning_rate }

/-- `CustomDistilBertModel.configure_optimizers` (lines 341-348); the
docstring shows a filtered variant but the executed line passes
`self.parameters()` unfiltered. -/
def CustomDistilBertModel.configure_optimizers (m : CustomDistilBertModel) :
    Adam :=
  { params := m.parameters, lr := m.learning_rate }

/-!  Structural reflection of the class and method signatures, used for the
claims that talk about which classes exist and which inputs each `forward`
takes.  Each equation mirrors one `class` / `def forward` line of
`model.py`. -/

/-- The model classes defined in `model.py`, in source order. -/
inductive ModelKind
  | base
  | bilstm
  | customDistilBert
deriving DecidableEq

/-- The three class definitions of the file (lines 11, 124, 221). -/
def modelClasses : List ModelKind :=
  [ModelKind.base, ModelKind.bilstm, ModelKind.customDistilBert]

/-- The two kinds of data a `forward` method can take. -/
inductive ForwardArg
  | encodedText
  | categoricalFeatures
deriving DecidableEq

/-- The parameters (after `self`) of the `forward` method of each class:
`BaseModel.forward(self, encoded_text, category_vectors)` (line 57),
`BiLSTMModel.forward(self, encoded_texts, encoded_classes)` (line 161),
`CustomDistilBertModel.forward(self, encoded_text)` (line 263). -/
def forwardArgs : ModelKind → List ForwardArg
  | ModelKind.base => [ForwardArg.encodedText, ForwardArg.categoricalFeatures]
  | ModelKind.bilstm => [ForwardArg.encodedText, ForwardArg.categoricalFeatures]
  | ModelKind.customDistilBert => [ForwardArg.encodedText]

/-- The submodules each `__init__` registers, in source order. -/
inductive NNSubmodule
  | bertEncoder
  | embeddingTable
  | distilbertTailHead
  | categoryEncoderHead
  | bilstmLayer
  | classifierHead
deriving DecidableEq

/-- The submodules registered by each constructor:
`BaseModel` (lines 30-55), `BiLSTMModel` (lines 141-159),
`CustomDistilBertModel` (lines 244-261). -/
def initSubmodules : ModelKind → List NNSubmodule
  | ModelKind.base =>
      [NNSubmodule.bertEncoder, NNSubmodule.distilbertTailHead,
       NNSubmodule.categoryEncoderHead, NNSubmodule.classifierHead]
  | ModelKind.bilstm =>
      [NNSubmodule.embeddingTable, NNSubmodule.categoryEncoderHead,
       NNSubmodule.bilstmLayer, NNSubmodule.classifierHead]
  | ModelKind.customDistilBert =>
      [NNSubmodule.bertEncoder, NNSubmodule.distilbertTailHead,
       NNSubmodule.classifierHead]

/-!  Fallible view of the method bodies.  Every operation a method performs
is a call into the numeric library or encoder, any of which may raise
(shape mismatch, missing pretrained weights, device error).  The methods
contain no `try`/`except`, so each body is a plain sequential composition:
we model it as `Except`-bind over the same call sequence as the Python and
prove that the error of a failing call is returned unchanged. -/

/-- The failures a numeric-library or encoder call can raise. -/
inductive LibErr
  | shapeMismatch
  | missingPretrainedWeights
  | deviceError
deriving DecidableEq

/-- The running state of a `torchmetrics.MeanSquaredError` accumulator. -/
structure MetricState where
  sum_sq : ℚ
  count : Nat
deriving DecidableEq

/-- One metric update `self.train_metric(y_hat, y.unsqueeze(1))`. -/
def MetricState.update (st : MetricState) (y_hat : Mat) (y : Vec) : MetricState :=
  { sum_sq := st.sum_sq +
      (List.zipWith (fun r s => (List.zipWith (fun x z => (x - z) ^ 2) r s).sum)
        y_hat (unsqueeze1 y)).sum
    count := st.count + numel y_hat }

/-- The running state of a `torchmetrics.F1` accumulator: the accumulated
(prediction, label) pairs. -/
structure F1State where
  pairs : List (Nat × Nat)
deriving DecidableEq

/-- One metric update `self.train_metric(pred, y)` of the stance model. -/
def F1State.update (st : F1State) (pred y : List Nat) : F1State :=
  { pairs := st.pairs ++ List.zip pred y }

/-- The library calls the methods of the three classes make, each allowed
to fail.  The `toDevice` entries are the `.to(self.device)` moves at the
start of every step method; `logScalar` is the `self.log` call (its
constant name string elided); `mkAdam` is the `torch.optim.Adam`
constructor call; `metricCompute` / `f1Compute` are the `.compute()` calls
of the epoch-end hooks. -/
structure FallibleOps where
  toDeviceVec : Vec → Except LibErr Vec
  toDeviceText : EncodedText → Except LibErr EncodedText
  toDeviceMat : Mat → Except LibErr Mat
  toDeviceIds : List (List Nat) → Except LibErr (List (List Nat))
  toDeviceLabels : List Nat → Except LibErr (List Nat)
  bertRun : List (List Nat) → List (List Nat) → Except LibErr Mat3
  tailApply : Mat → Except LibErr Mat
  catApply : Mat → Except LibErr Mat
  concatDim1 : Mat → Mat → Except LibErr Mat
  classifierApply : Mat → Except LibErr Mat
  embedLookup : List (List Nat) → Except LibErr Mat3
  lstmApply : Mat3 → Except LibErr Mat3
  selectLastOp : Mat3 → Except LibErr Mat
  mseLoss : Vec → Vec → Except LibErr ℚ
  mseLoss2 : Mat → Mat → Except LibErr ℚ
  ceLoss : Mat → List Nat → Except LibErr ℚ
  argmaxRows : Mat → Except LibErr (List Nat)
  logScalar : ℚ → Except LibErr Unit
  metricCompute : MetricState → Except LibErr ℚ
  f1Compute : F1State → Except LibErr ℚ
  mkAdam : List Param → ℚ → Except LibErr Adam

/-- `BaseModel.forward` with each library call fallible; the body is the
same call sequence as lines 57-72, with no handling added. -/
def BaseModel.forwardE (ops : FallibleOps) (encoded_text : EncodedText)
    (category_vectors : Mat) : Except LibErr Mat := do
  let bert_output ← ops.bertRun encoded_text.input_ids encoded_text.attention_mask
  let pooled_output := selectPos0 bert_output
  let pooled_output ← ops.tailApply pooled_output
  let categories_encoded ← ops.catApply category_vectors
  let concat ← ops.concatDim1 pooled_output categories_encoded
  ops.classifierApply concat

/-- `BaseModel.training_step` (lines 74-90) with fallible library calls:
move the unpacked batch to the device, forward, loss
`F.mse_loss(y_hat.view(-1), y.view(-1))`, metric update, `self.log`,
return the loss. -/
def BaseModel.training_stepE (ops : FallibleOps) (st : MetricState)
    (y0 : Vec) (encoded_texts0 : EncodedText) (category_vectors0 : Mat) :
    Except LibErr (ℚ × MetricState) := do
  let y ← ops.toDeviceVec y0
  let encoded_texts ← ops.toDeviceText encoded_texts0
  let category_vectors ← ops.toDeviceMat category_vectors0
  let y_hat ← BaseModel.forwardE ops encoded_texts category_vectors
  let loss ← ops.mseLoss (viewFlat y_hat) y
  let st1 := st.update y_hat y
  let _ ← ops.logScalar loss
  pure (loss, st1)

/-- `BaseModel.validation_step` (lines 98-112) with fallible library calls;
the loss is `F.mse_loss(y_hat, y.unsqueeze(1))`. -/
def BaseModel.validation_stepE (ops : FallibleOps) (st : MetricState)
    (y0 : Vec) (encoded_texts0 : EncodedText) (category_vectors0 : Mat) :
    Except LibErr (ℚ × MetricState) := do
  let y ← ops.toDeviceVec y0
  let encoded_texts ← ops.toDeviceText encoded_texts0
  let category_vectors ← ops.toDeviceMat category_vectors0
  let y_hat ← BaseModel.forwardE ops encoded_texts category_vectors
  let loss ← ops.mseLoss2 y_hat (unsqueeze1 y)
  let st1 := st.update y_hat y
  let _ ← ops.logScalar loss
  pure (loss, st1)

/-- `BaseModel.training_epoch_end` (lines 92-96): log the computed metric. -/
def BaseModel.training_epoch_endE (ops : FallibleOps) (st : MetricState) :
    Except LibErr Unit := do
  let v ← ops.metricCompute st
  ops.logScalar v

/-- `BaseModel.validation_epoch_end` (lines 114-117). -/
def BaseModel.validation_epoch_endE (ops : FallibleOps) (st : MetricState) :
    Except LibErr Unit := do
  let v ← ops.metricCompute st
  ops.logScalar v

/-- `BaseModel.configure_optimizers` (lines 119-121) with the `Adam`
constructor call fallible. -/
def BaseModel.configure_optimizersE (ops : FallibleOps) (m : BaseModel) :
    Except LibErr Adam :=
  ops.mkAdam m.parameters m.learning_rate

/-- `BiLSTMModel.forward` (lines 161-171) with each library call fallible:
embedding lookup, BiLSTM, category encoder, last-time-step slice,
concatenation, classifier. -/
def BiLSTMModel.forwardE (ops : FallibleOps) (encoded_texts : List (List Nat))
    (encoded_classes : Mat) : Except LibErr Mat := do
  let embeddings ← ops.embedLookup encoded_texts
  let lstm_out ← ops.lstmApply embeddings
  let categories_encoded ← ops.catApply encoded_classes
  let forward ← ops.selectLastOp lstm_out
  let combined ← ops.concatDim1 forward categories_encoded
  ops.classifierApply combined

/-- `BiLSTMModel.training_step` (lines 173-187) with fallible library
calls. -/
def BiLSTMModel.training_stepE (ops : FallibleOps) (st : MetricState)
    (y0 : Vec) (encoded_texts0 : List (List Nat)) (encoded_classes0 : Mat) :
    Except LibErr (ℚ × MetricState) := do
  let y ← ops.toDeviceVec y0
  let encoded_texts ← ops.toDeviceIds encoded_texts0
  let encoded_classes ← ops.toDeviceMat encoded_classes0
  let y_hat ← BiLSTMModel.forwardE ops encoded_texts encoded_classes
  let loss ← ops.mseLoss2 y_hat (unsqueeze1 y)
  let st1 := st.update y_hat y
  let _ ← ops.logScalar loss
  pure (loss, st1)

/-- `BiLSTMModel.validation_step` (lines 195-209); its body is the same
call sequence as the training step. -/
def BiLSTMModel.validation_stepE (ops : FallibleOps) (st : MetricState)
    (y0 : Vec) (encoded_texts0 : List (List Nat)) (encoded_classes0 : Mat) :
    Except LibErr (ℚ × MetricState) := do
  let y ← ops.toDeviceVec y0
  let encoded_texts ← ops.toDeviceIds encoded_texts0
  let encoded_classes ← ops.toDeviceMat encoded_classes0
  let y_hat ← BiLSTMModel.forwardE ops encoded_texts encoded_classes
  let loss ← ops.mseLoss2 y_hat (unsqueeze1 y)
  let st1 := st.update y_hat y
  let _ ← ops.logScalar loss
  pure (loss, st1)

/-- `BiLSTMModel.training_epoch_end` (lines 189-193). -/
def BiLSTMModel.training_epoch_endE (ops : FallibleOps) (st : MetricState) :
    Except LibErr Unit := do
  let v ← ops.metricCompute st
  ops.logScalar v

/-- `BiLSTMModel.validation_epoch_end` (lines 211-214). -/
def BiLSTMModel.validation_epoch_endE (ops : FallibleOps) (st : MetricState) :
    Except LibErr Unit := do
  let v ← ops.metricCompute st
  ops.logScalar v

/-- `BiLSTMModel.configure_optimizers` (lines 216-218). -/
def BiLSTMModel.configure_optimizersE (ops : FallibleOps) (m : BiLSTMModel) :
    Except LibErr Adam :=
  ops.mkAdam m.parameters m.learning_rate

/-- `CustomDistilBertModel.forward` (lines 263-273) with each library call
fallible: encoder (under `torch.no_grad()`), tail, classifier. -/
def CustomDistilBertModel.forwardE (ops : FallibleOps)
    (encoded_text : EncodedText) : Except LibErr Mat := do
  let bert_output ← ops.bertRun encoded_text.input_ids
    encoded_text.attention_mask
  let pooled_output := selectPos0 bert_output
  let pooled_output ← ops.tailApply pooled_output
  ops.classifierApply pooled_output

/-- `CustomDistilBertModel.training_step` (lines 275-291): device moves,
forward, `argmax`, `F.cross_entropy`, F1 update, `self.log`, return. -/
def CustomDistilBertModel.training_stepE (ops : FallibleOps) (st : F1State)
    (y0 : List Nat) (encoded_texts0 : EncodedText) :
    Except LibErr (ℚ × F1State) := do
  let y ← ops.toDeviceLabels y0
  let encoded_texts ← ops.toDeviceText encoded_texts0
  let y_hat ← CustomDistilBertModel.forwardE ops encoded_texts
  let pred ← ops.argmaxRows y_hat
  let loss ← ops.ceLoss y_hat y
  let st1 := st.update pred y
  let _ ← ops.logScalar loss
  pure (loss, st1)

/-- `CustomDistilBertModel.validation_step` (lines 299-313); same call
sequence as the training step. -/
def CustomDistilBertModel.validation_stepE (ops : FallibleOps) (st : F1State)
    (y0 : List Nat) (encoded_texts0 : EncodedText) :
    Except LibErr (ℚ × F1State) := do
  let y ← ops.toDeviceLabels y0
  let encoded_texts ← ops.toDeviceText encoded_texts0
  let y_hat ← CustomDistilBertModel.forwardE ops encoded_texts
  let pred ← ops.argmaxRows y_hat
  let loss ← ops.ceLoss y_hat y
  let st1 := st.update pred y
  let _ ← ops.logScalar loss
  pure (loss, st1)

/-- `CustomDistilBertModel.test_step` (lines 320-334); same call sequence
as the training step. -/
def CustomDistilBertModel.test_stepE (ops : FallibleOps) (st : F1State)
    (y0 : List Nat) (encoded_texts0 : EncodedText) :
    Except LibErr (ℚ × F1State) := do
  let y ← ops.toDeviceLabels y0
  let encoded_texts ← ops.toDeviceText encoded_texts0
  let y_hat ← CustomDistilBertModel.forwardE ops encoded_texts
  let pred ← ops.argmaxRows y_hat
  let loss ← ops.ceLoss y_hat y
  let st1 := st.update pred y
  let _ ← ops.logScalar loss
  pure (loss, st1)

/-- `CustomDistilBertModel.training_epoch_end` (lines 293-297). -/
def CustomDistilBertModel.training_epoch_endE (ops : FallibleOps)
    (st : F1State) : Except LibErr Unit := do
  let v ← ops.f1Compute st
  ops.logScalar v

/-- `CustomDistilBertModel.validation_epoch_end` (lines 315-318). -/
def CustomDistilBertModel.validation_epoch_endE (ops : FallibleOps)
    (st : F1State) : Except LibErr Unit := do
  let v ← ops.f1Compute st
  ops.logScalar v

/-- `CustomDistilBertModel.test_epoch_end` (lines 336-339). -/
def CustomDistilBertModel.test_epoch_endE (ops : FallibleOps)
    (st : F1State) : Except LibErr Unit := do
  let v ← ops.f1Compute st
  ops.logScalar v

/-- `CustomDistilBertModel.configure_optimizers` (lines 341-348). -/
def CustomDistilBertModel.configure_optimizersE (ops : FallibleOps)
    (m : CustomDistilBertModel) : Except LibErr Adam :=
  ops.mkAdam m.parameters m.learning_rate

-- Further helper lemmas.

theorem freeze_run (b : DistilBert) : (freeze b).run = b.run := rfl

theorem freeze_params_rg (b : DistilBert) :
    ∀ p ∈ (freeze b).params, p.requires_grad = false := by
  intro p hp
  simp only [freeze, List.mem_map] at hp
  obtain ⟨q, _, rfl⟩ := hp
  rfl

theorem shape2_selectLast (xs : Mat3) (bs s c : Nat) (hs : 0 < s)
    (h : shape3 xs bs s c) : shape2 (selectLast xs) bs c := by
  obtain ⟨hl, hr⟩ := h
  refine ⟨by simp [selectLast, hl], ?_⟩
  intro row hrow
  simp only [selectLast, List.mem_map] at hrow
  obtain ⟨m, hm, rfl⟩ := hrow
  obtain ⟨hml, hmr⟩ := hr m hm
  have hd1 : dim1 xs = s := by
    cases xs with
    | nil => simp at hm
    | cons x t =>
        simp only [dim1, List.headD_cons]
        exact (hr x (by simp)).1
  have hlt : dim1 xs - 1 < m.length := by omega
  rw [List.getD_eq_getElem _ _ hlt]
  exact hmr _ (List.getElem_mem hlt)

theorem mse_sum_flat_eq (yh : Mat) (y : Vec)
    (h1 : ∀ row ∈ yh, row.length = 1) :
    (List.zipWith (fun x z => (x - z) ^ 2) yh.flatten y).sum =
      (List.zipWith
        (fun r s => (List.zipWith (fun x z => (x - z) ^ 2) r s).sum)
        yh (unsqueeze1 y)).sum := by
  induction yh generalizing y with
  | nil => simp
  | cons r t ih =>
      have hr1 : r.length = 1 := h1 r (by simp)
      obtain ⟨a, rfl⟩ : ∃ a, r = [a] := by
        cases r with
        | nil => simp at hr1
        | cons a s =>
            cases s with
            | nil => exact ⟨a, rfl⟩
            | cons b u => simp at hr1
      cases y with
      | nil => simp [unsqueeze1]
      | cons b ys =>
          simp only [List.flatten_cons, unsqueeze1, List.map_cons,
            List.zipWith_cons_cons, List.sum_cons, List.singleton_append]
          rw [ih ys (by intro row hrow; exact h1 row (by simp [hrow]))]
          simp [unsqueeze1]

theorem numel_unsqueeze_rows (yh : Mat) (h1 : ∀ row ∈ yh, row.length = 1) :
    numel yh = yh.length := by
  induction yh with
  | nil => simp [numel]
  | cons r t ih =>
      have : r.length = 1 := h1 r (by simp)
      simp only [numel, List.map_cons, List.sum_cons] at ih ⊢
      rw [this, ih (by intro row hrow; exact h1 row (by simp [hrow]))]
      rw [List.length_cons]
      omega

/-!  Shared concrete instances used to instantiate the theorems below on
explicit inputs. -/

/-- A concrete config with `vocab_size = 0`. -/
def cfgA : Config :=
  { learning_rate := 1/100, vocab_size := 0, category_encoded_length := 1,
    category_encoder_out := 1, embedding_dim := 1, bilstm_hidden_dim := 1 }

/-- A concrete config with `vocab_size = 5`. -/
def cfgB : Config :=
  { learning_rate := 1/100, vocab_size := 5, category_encoded_length := 1,
    category_encoder_out := 1, embedding_dim := 1, bilstm_hidden_dim := 1 }

/-- A concrete pretrained encoder: `dim = 1`, vocabulary 30522, one
parameter, constant output of shape `(1, 1, 1)`. -/
def preA : DistilBert :=
  { dim := 1, vocab_size := 30522, seq_classif_dropout := 1/10,
    run := fun _ _ => [[[0]]], params := [⟨[2], true⟩] }

/-- Concrete initializer values: all-ones weights, zero biases. -/
def rA : LayerInit :=
  { tailW := fun _ _ => 1, tailB := fun _ => 0, catW := fun _ _ => 1,
    catB := fun _ => 0, clsW := fun _ _ => 1, clsB := fun _ => 0 }

/-- A concrete tokenized batch of one sequence of one token. -/
def tA : EncodedText := { input_ids := [[7]], attention_mask := [[1]] }

/-- The eval-mode dropout multiplier. -/
def muOne : Nat → Nat → ℚ := fun _ _ => 1

/-- A concrete `BaseModel` instance. -/
def mBaseA : BaseModel := BaseModel.init cfgA preA rA

/-- A concrete `CustomDistilBertModel` instance. -/
def mCustomA : CustomDistilBertModel := CustomDistilBertModel.init cfgA preA rA

/-- A concrete `BiLSTMModel` instance; the LSTM returns a constant
`(1, 1, 2)` output. -/
def mLstmA : BiLSTMModel :=
  BiLSTMModel.init cfgB rA (fun _ _ => 0) (fun _ => [[[0, 0]]]) [[3]]

theorem mkLinear_params_rg (inF outF : Nat) (wi : Nat → Nat → ℚ)
    (bi : Nat → ℚ) :
    ∀ p ∈ (mkLinear inF outF wi bi).params, p.requires_grad = true := by
  intro p hp
  simp only [mkLinear, Linear.params, List.mem_cons, List.mem_singleton,
    List.not_mem_nil, or_false] at hp
  rcases hp with rfl | rfl <;> rfl

/-- C1: after construction of a `BaseModel` or `CustomDistilBertModel`,
every parameter of the pretrained encoder `self.bert` has
`requires_grad = False`, while every parameter of the attached head layers
(`distilbert_tail`, `category_encoder` where present, and `classifier`)
has `requires_grad = True`. -/
theorem encoder_frozen_heads_trainable
    (config : Config) (pre : DistilBert) (r : LayerInit) :
    (∀ p ∈ (BaseModel.init config pre r).bert.params,
       p.requires_grad = false) ∧
    (∀ p ∈ (BaseModel.init config pre r).distilbert_tail.lin.params ++
        (BaseModel.init config pre r).category_encoder.lin.params ++
        (BaseModel.init config pre r).classifier.params,
       p.requires_grad = true) ∧
    (∀ p ∈ (CustomDistilBertModel.init config pre r).bert.params,
       p.requires_grad = false) ∧
    (∀ p ∈ (CustomDistilBertModel.init config pre r).distilbert_tail.lin.params ++
        (CustomDistilBertModel.init config pre r).classifier.params,
       p.requires_grad = true) := by
  refine ⟨freeze_params_rg pre, ?_, freeze_params_rg pre, ?_⟩
  · intro p hp
    simp only [List.mem_append] at hp
    rcases hp with (hp | hp) | hp
    · exact mkLinear_params_rg _ _ _ _ p hp
    · exact mkLinear_params_rg _ _ _ _ p hp
    · exact mkLinear_params_rg _ _ _ _ p hp
  · intro p hp
    simp only [List.mem_append] at hp
    rcases hp with hp | hp
    · exact mkLinear_params_rg _ _ _ _ p hp
    · exact mkLinear_params_rg _ _ _ _ p hp

/-- Witness for C1 at a concrete model: the single encoder parameter of
`mBaseA` is frozen and a concrete head parameter is trainable. -/
theorem encoder_frozen_heads_trainable_witness :
    Param.requires_grad ⟨[2], false⟩ = false ∧
    Param.requires_grad ⟨[0], true⟩ = true := by
  constructor
  · exact (encoder_frozen_heads_trainable cfgA preA rA).1 ⟨[2], false⟩
      (by decide)
  · exact (encoder_frozen_heads_trainable cfgA preA rA).2.1 ⟨[0], true⟩
      (by decide)

/-- C10: during construction of `BaseModel` and `CustomDistilBertModel`,
`config["vocab_size"]` is overwritten with the vocabulary size of the encoder
iff it was 0, and every other entry of the stored config is exactly the
entry `create_config` produced. -/
theorem config_vocab_frame (config : Config) (pre : DistilBert) (r : LayerInit) :
    ((BaseModel.init config pre r).config =
       if config.vocab_size = 0 then { config with vocab_size := pre.vocab_size }
       else config) ∧
    ((CustomDistilBertModel.init config pre r).config =
       if config.vocab_size = 0 then { config with vocab_size := pre.vocab_size }
       else config) ∧
    (config.vocab_size = 0 →
       (BaseModel.init config pre r).config.vocab_size = pre.vocab_size ∧
       (CustomDistilBertModel.init config pre r).config.vocab_size =
         pre.vocab_size) ∧
    (config.vocab_size ≠ 0 →
       (BaseModel.init config pre r).config = config ∧
       (CustomDistilBertModel.init config pre r).config = config) ∧
    (BaseModel.init config pre r).config.learning_rate = config.learning_rate ∧
    (BaseModel.init config pre r).config.category_encoded_length =
      config.category_encoded_length ∧
    (BaseModel.init config pre r).config.category_encoder_out =
      config.category_encoder_out ∧
    (BaseModel.init config pre r).config.embedding_dim = config.embedding_dim ∧
    (BaseModel.init config pre r).config.bilstm_hidden_dim =
      config.bilstm_hidden_dim := by
  by_cases h : config.vocab_size = 0 <;>
    simp [BaseModel.init, CustomDistilBertModel.init, initConfigUpdate, h]

/-- Witness for C10 on the concrete configs `cfgA` (`vocab_size = 0`,
overwritten with 30522) and `cfgB` (`vocab_size = 5`, untouched). -/
theorem config_vocab_frame_witness :
    ((BaseModel.init cfgA preA rA).config.vocab_size = 30522 ∧
     (CustomDistilBertModel.init cfgA preA rA).config.vocab_size = 30522) ∧
    ((BaseModel.init cfgB preA rA).config = cfgB ∧
     (CustomDistilBertModel.init cfgB preA rA).config = cfgB) := by
  constructor
  · exact (config_vocab_frame cfgA preA rA).2.2.1 (by decide)
  · exact (config_vocab_frame cfgB preA rA).2.2.2.1 (by decide)

/-- C8: for every model, `configure_optimizers` returns an Adam optimizer
over all of the parameters of the model — the frozen encoder parameters
included — with learning rate `config["learning_rate"]`. -/
theorem adam_over_all_params (config : Config) (pre : DistilBert)
    (r : LayerInit) (embW : Nat → Nat → ℚ) (lstmRun : Mat3 → Mat3)
    (lstmInit : List (List ℚ)) :
    ((BaseModel.init config pre r).configure_optimizers.params =
       (BaseModel.init config pre r).parameters) ∧
    ((BaseModel.init config pre r).configure_optimizers.lr =
       config.learning_rate) ∧
    (∀ p ∈ (BaseModel.init config pre r).bert.params,
       p.requires_grad = false ∧
         p ∈ (BaseModel.init config pre r).configure_optimizers.params) ∧
    ((BiLSTMModel.init config r embW lstmRun lstmInit).configure_optimizers.params =
       (BiLSTMModel.init config r embW lstmRun lstmInit).parameters) ∧
    ((BiLSTMModel.init config r embW lstmRun lstmInit).configure_optimizers.lr =
       config.learning_rate) ∧
    ((CustomDistilBertModel.init config pre r).configure_optimizers.params =
       (CustomDistilBertModel.init config pre r).parameters) ∧
    ((CustomDistilBertModel.init config pre r).configure_optimizers.lr =
       config.learning_rate) ∧
    (∀ p ∈ (CustomDistilBertModel.init config pre r).bert.params,
       p.requires_grad = false ∧
         p ∈ (CustomDistilBertModel.init config pre r).configure_optimizers.params) := by
  refine ⟨rfl, rfl, ?_, rfl, rfl, rfl, rfl, ?_⟩
  · intro p hp
    refine ⟨freeze_params_rg pre p hp, ?_⟩
    simp only [BaseModel.configure_optimizers, BaseModel.parameters,
      List.mem_append]
    exact Or.inl (Or.inl (Or.inl hp))
  · intro p hp
    refine ⟨freeze_params_rg pre p hp, ?_⟩
    simp only [CustomDistilBertModel.configure_optimizers,
      CustomDistilBertModel.parameters, List.mem_append]
    exact Or.inl (Or.inl hp)

/-- Witness for C8: the frozen encoder parameter of the concrete models is
in the parameter list of the optimizer. -/
theorem adam_over_all_params_witness :
    (Param.requires_grad ⟨[2], false⟩ = false ∧
       (⟨[2], false⟩ : Param) ∈
         (BaseModel.init cfgA preA rA).configure_optimizers.params) ∧
    (Param.requires_grad ⟨[2], false⟩ = false ∧
       (⟨[2], false⟩ : Param) ∈
         (CustomDistilBertModel.init cfgA preA rA).configure_optimizers.params) := by
  constructor
  · exact (adam_over_all_params cfgA preA rA (fun _ _ => 0) (fun x => x)
      []).2.2.1 ⟨[2], false⟩ (by decide)
  · exact (adam_over_all_params cfgA preA rA (fun _ _ => 0) (fun x => x)
      []).2.2.2.2.2.2.2 ⟨[2], false⟩ (by decide)

theorem mkLinear_weight_row_length (inF outF : Nat) (wi : Nat → Nat → ℚ)
    (bi : Nat → ℚ) :
    ∀ row ∈ (mkLinear inF outF wi bi).weight, row.length = inF := by
  intro row hrow
  simp only [mkLinear, List.mem_map] at hrow
  obtain ⟨i, _, rfl⟩ := hrow
  simp

/-- C2 counterexample: `CustomDistilBertModel` is one of the model classes
of the file, yet its `forward` method takes no categorical-feature input
(line 263: `def forward(self, encoded_text)`), so not every model predicts
from text plus categorical features. -/
theorem custom_forward_no_categorical :
    ModelKind.customDistilBert ∈ modelClasses ∧
    ForwardArg.categoricalFeatures ∉ forwardArgs ModelKind.customDistilBert := by
  decide

/-- C2 (amended): `BaseModel.forward` and `BiLSTMModel.forward` take an
encoded-text input and a categorical-feature input — and for both of them
the categorical input genuinely influences the prediction — while
`CustomDistilBertModel.forward` takes only the encoded text. -/
theorem forward_inputs_per_model :
    forwardArgs ModelKind.base =
      [ForwardArg.encodedText, ForwardArg.categoricalFeatures] ∧
    forwardArgs ModelKind.bilstm =
      [ForwardArg.encodedText, ForwardArg.categoricalFeatures] ∧
    forwardArgs ModelKind.customDistilBert = [ForwardArg.encodedText] ∧
    BaseModel.forward mBaseA muOne tA [[1]] ≠
      BaseModel.forward mBaseA muOne tA [[2]] ∧
    BiLSTMModel.forward mLstmA [[0]] [[1]] ≠
      BiLSTMModel.forward mLstmA [[0]] [[2]] := by
  refine ⟨rfl, rfl, rfl, ?_, ?_⟩
  · simp only [BaseModel.forward, mBaseA, BaseModel.init, freeze, preA, cfgA,
      rA, tA, muOne, mkLinear, Tail.apply, CatEncoder.apply, Linear.apply,
      Linear.applyVec, reluMat, reluVec, dropoutApply, mapIdxRec, hcat,
      selectPos0, dot, DistilBert.hidden_size, List.range_succ,
      List.range_zero, List.map, List.zipWith, List.sum_cons, List.sum_nil,
      List.headD]
    norm_num
  · simp only [BiLSTMModel.forward, mLstmA, BiLSTMModel.init, cfgB, rA,
      mkLinear, mkEmbedding, Embedding.apply, selectLast, dim1,
      CatEncoder.apply, Linear.apply, Linear.applyVec, reluMat, reluVec,
      hcat, dot, List.range_succ, List.range_zero, List.map, List.zipWith,
      List.sum_cons, List.sum_nil, List.headD, List.getD]
    norm_num

/-- C6 counterexample: `CustomDistilBertModel` is one of the three classes
but registers no `category_encoder` submodule (lines 244-261), so not each
of the three pairs a category encoder with the shared head pattern. -/
theorem custom_no_category_encoder :
    ModelKind.customDistilBert ∈ modelClasses ∧
    NNSubmodule.categoryEncoderHead ∉
      initSubmodules ModelKind.customDistilBert := by
  decide

/-- C6 (amended): the file contains exactly three model class definitions,
each ending in a final linear classifier; `BaseModel` and `BiLSTMModel`
pair a `category_encoder` with that classifier, while
`CustomDistilBertModel` has no category encoder and its classifier takes
only the text representation (input width `hidden_size`, against
`hidden_size + category_encoder_out` for `BaseModel`). -/
theorem three_models_head_pattern
    (config : Config) (pre : DistilBert) (r : LayerInit) :
    modelClasses.length = 3 ∧
    (∀ k ∈ modelClasses, NNSubmodule.classifierHead ∈ initSubmodules k) ∧
    NNSubmodule.categoryEncoderHead ∈ initSubmodules ModelKind.base ∧
    NNSubmodule.categoryEncoderHead ∈ initSubmodules ModelKind.bilstm ∧
    NNSubmodule.categoryEncoderHead ∉
      initSubmodules ModelKind.customDistilBert ∧
    (∀ row ∈ (CustomDistilBertModel.init config pre r).classifier.weight,
       row.length = pre.hidden_size) ∧
    (∀ row ∈ (BaseModel.init config pre r).classifier.weight,
       row.length = pre.hidden_size + config.category_encoder_out) := by
  refine ⟨rfl, by decide, by decide, by decide, by decide, ?_, ?_⟩
  · exact mkLinear_weight_row_length _ _ _ _
  · exact mkLinear_weight_row_length _ _ _ _

/-- Witness for C6 (amended) at concrete inputs: the classifier weight of
the concrete custom model has rows of width `hidden_size = 1`, that of the
concrete base model rows of width `1 + 1`. -/
theorem three_models_head_pattern_witness :
    NNSubmodule.classifierHead ∈ initSubmodules ModelKind.base ∧
    List.length [(1 : ℚ)] = preA.hidden_size ∧
    List.length [(1 : ℚ), 1] = preA.hidden_size + cfgA.category_encoder_out := by
  refine ⟨?_, ?_, ?_⟩
  · exact (three_models_head_pattern cfgA preA rA).2.1 ModelKind.base
      (by decide)
  · exact (three_models_head_pattern cfgA preA rA).2.2.2.2.2.1 [(1 : ℚ)]
      (by decide)
  · exact (three_models_head_pattern cfgA preA rA).2.2.2.2.2.2 [(1 : ℚ), 1]
      (by decide)

/-- C5 counterexample: on the two concrete configs `cfgA`
(`vocab_size = 0`) and `cfgB` (`vocab_size = 5`), the constructor neither
uniformly keeps nor uniformly overwrites the stored `vocab_size`: the
outcome depends on the configuration value, i.e. construction contains a
config-dependent branch (lines 32-34). -/
theorem construction_config_branch :
    ¬ (((BaseModel.init cfgA preA rA).config.vocab_size = cfgA.vocab_size ∧
        (BaseModel.init cfgB preA rA).config.vocab_size = cfgB.vocab_size) ∨
       ((BaseModel.init cfgA preA rA).config.vocab_size = preA.vocab_size ∧
        (BaseModel.init cfgB preA rA).config.vocab_size = preA.vocab_size)) := by
  decide

/-- C5 (amended): the forward passes are straight-line — for every input
they compute the one fixed composition of the layers — and construction is
straight-line except for a single conditional, which overwrites
`config["vocab_size"]` with the vocabulary size of the encoder exactly when it
is 0. -/
theorem straight_line_except_vocab_check
    (config : Config) (pre : DistilBert) (r : LayerInit) (μ : Nat → Nat → ℚ)
    (t : EncodedText) (cv : Mat) :
    ((BaseModel.init config pre r).config =
       initConfigUpdate pre.vocab_size config ∧
     (CustomDistilBertModel.init config pre r).config =
       initConfigUpdate pre.vocab_size config ∧
     initConfigUpdate pre.vocab_size config =
       (if config.vocab_size = 0
        then { config with vocab_size := pre.vocab_size } else config)) ∧
    (BaseModel.forward (BaseModel.init config pre r) μ t cv =
       (BaseModel.init config pre r).classifier.apply
         (hcat ((BaseModel.init config pre r).distilbert_tail.apply μ
             (selectPos0 (pre.run t.input_ids t.attention_mask)))
           ((BaseModel.init config pre r).category_encoder.apply cv))) ∧
    (CustomDistilBertModel.forward (CustomDistilBertModel.init config pre r)
         μ t =
       (CustomDistilBertModel.init config pre r).classifier.apply
         ((CustomDistilBertModel.init config pre r).distilbert_tail.apply μ
           (selectPos0 (pre.run t.input_ids t.attention_mask)))) :=
  ⟨⟨rfl, rfl, rfl⟩, rfl, rfl⟩

/-- Specification-side composition of `BaseModel.forward`, written from the
spec sentence: concatenate the pooled transformer output (the hidden state
at sequence position 0, passed through the `distilbert_tail` layers) with
the encoded categorical vector along the feature dimension, and pass the
concatenation through the single linear `classifier` layer. -/
def BaseModel.forwardSpec (m : BaseModel) (μ : Nat → Nat → ℚ)
    (encoded_text : EncodedText) (category_vectors : Mat) : Mat :=
  Linear.apply m.classifier
    (hcat
      (Tail.apply m.distilbert_tail μ
        (selectPos0
          (m.bert.run encoded_text.input_ids encoded_text.attention_mask)))
      (CatEncoder.apply m.category_encoder category_vectors))

/-- C4: the step-for-step embedding of `BaseModel.forward` (lines 57-72)
computes exactly the spec-side composition, for every model state and every
input. -/
theorem base_forward_is_spec_composition (m : BaseModel) (μ : Nat → Nat → ℚ)
    (t : EncodedText) (cv : Mat) :
    BaseModel.forward m μ t cv = BaseModel.forwardSpec m μ t cv := rfl

theorem base_forward_shape_general (m : BaseModel) (μ : Nat → Nat → ℚ)
    (t : EncodedText) (cv : Mat) (bs sl d co : Nat) (hsl : 0 < sl)
    (hbert : shape3 (m.bert.run t.input_ids t.attention_mask) bs sl d)
    (htw : m.distilbert_tail.lin.weight.length = d)
    (htb : m.distilbert_tail.lin.bias.length = d)
    (hcw : m.category_encoder.lin.weight.length = co)
    (hcb : m.category_encoder.lin.bias.length = co)
    (hkw : m.classifier.weight.length = 1)
    (hkb : m.classifier.bias.length = 1)
    (hcv : cv.length = bs) :
    shape2 (BaseModel.forward m μ t cv) bs 1 := by
  have h0 : shape2 (selectPos0 (m.bert.run t.input_ids t.attention_mask)) bs d :=
    shape2_selectPos0 _ bs sl d hsl hbert
  have h1 : shape2 (m.distilbert_tail.lin.apply
      (selectPos0 (m.bert.run t.input_ids t.attention_mask))) bs d := by
    have h := shape2_linear_apply m.distilbert_tail.lin
      (selectPos0 (m.bert.run t.input_ids t.attention_mask)) d htw htb
    rwa [h0.1] at h
  have h2 : shape2 (dropoutApply μ (reluMat (m.distilbert_tail.lin.apply
      (selectPos0 (m.bert.run t.input_ids t.attention_mask))))) bs d :=
    shape2_dropoutApply μ _ bs d (shape2_reluMat _ bs d h1)
  have h3 : shape2 (m.category_encoder.lin.apply cv) bs co := by
    have h := shape2_linear_apply m.category_encoder.lin cv co hcw hcb
    rwa [hcv] at h
  have h4 : shape2 (reluMat (m.category_encoder.lin.apply cv)) bs co :=
    shape2_reluMat _ bs co h3
  have h5 := shape2_hcat _ _ bs d co h2 h4
  have h6 : shape2 (m.classifier.apply
      (hcat
        (dropoutApply μ (reluMat (m.distilbert_tail.lin.apply
          (selectPos0 (m.bert.run t.input_ids t.attention_mask)))))
        (reluMat (m.category_encoder.lin.apply cv)))) bs 1 := by
    have h := shape2_linear_apply m.classifier
      (hcat
        (dropoutApply μ (reluMat (m.distilbert_tail.lin.apply
          (selectPos0 (m.bert.run t.input_ids t.attention_mask)))))
        (reluMat (m.category_encoder.lin.apply cv))) 1 hkw hkb
    rwa [h5.1] at h
  exact h6

theorem custom_forward_shape_general (m : CustomDistilBertModel)
    (μ : Nat → Nat → ℚ) (t : EncodedText) (bs sl d n : Nat) (hsl : 0 < sl)
    (hbert : shape3 (m.bert.run t.input_ids t.attention_mask) bs sl d)
    (htw : m.distilbert_tail.lin.weight.length = d)
    (htb : m.distilbert_tail.lin.bias.length = d)
    (hkw : m.classifier.weight.length = n)
    (hkb : m.classifier.bias.length = n) :
    shape2 (CustomDistilBertModel.forward m μ t) bs n := by
  have h0 : shape2 (selectPos0 (m.bert.run t.input_ids t.attention_mask)) bs d :=
    shape2_selectPos0 _ bs sl d hsl hbert
  have h1 : shape2 (m.distilbert_tail.lin.apply
      (selectPos0 (m.bert.run t.input_ids t.attention_mask))) bs d := by
    have h := shape2_linear_apply m.distilbert_tail.lin
      (selectPos0 (m.bert.run t.input_ids t.attention_mask)) d htw htb
    rwa [h0.1] at h
  have h2 : shape2 (dropoutApply μ (reluMat (m.distilbert_tail.lin.apply
      (selectPos0 (m.bert.run t.input_ids t.attention_mask))))) bs d :=
    shape2_dropoutApply μ _ bs d (shape2_reluMat _ bs d h1)
  have h6 : shape2 (m.classifier.apply
      (dropoutApply μ (reluMat (m.distilbert_tail.lin.apply
        (selectPos0 (m.bert.run t.input_ids t.attention_mask)))))) bs n := by
    have h := shape2_linear_apply m.classifier
      (dropoutApply μ (reluMat (m.distilbert_tail.lin.apply
        (selectPos0 (m.bert.run t.input_ids t.attention_mask))))) n hkw hkb
    rwa [h2.1] at h
  exact h6

theorem bilstm_forward_shape_general (m : BiLSTMModel)
    (ids : List (List Nat)) (cl : Mat) (bs sl h2 co : Nat) (hsl : 0 < sl)
    (hlstm : shape3 (m.bilstm.run (m.embedding.apply ids)) bs sl h2)
    (hcw : m.category_encoder.lin.weight.length = co)
    (hcb : m.category_encoder.lin.bias.length = co)
    (hkw : m.classifier.weight.length = 1)
    (hkb : m.classifier.bias.length = 1)
    (hcl : cl.length = bs) :
    shape2 (BiLSTMModel.forward m ids cl) bs 1 := by
  have h0 : shape2 (selectLast (m.bilstm.run (m.embedding.apply ids))) bs h2 :=
    shape2_selectLast _ bs sl h2 hsl hlstm
  have h3 : shape2 (m.category_encoder.lin.apply cl) bs co := by
    have h := shape2_linear_apply m.category_encoder.lin cl co hcw hcb
    rwa [hcl] at h
  have h4 : shape2 (reluMat (m.category_encoder.lin.apply cl)) bs co :=
    shape2_reluMat _ bs co h3
  have h5 := shape2_hcat _ _ bs h2 co h0 h4
  have h6 : shape2 (m.classifier.apply
      (hcat (selectLast (m.bilstm.run (m.embedding.apply ids)))
        (reluMat (m.category_encoder.lin.apply cl)))) bs 1 := by
    have h := shape2_linear_apply m.classifier
      (hcat (selectLast (m.bilstm.run (m.embedding.apply ids)))
        (reluMat (m.category_encoder.lin.apply cl))) 1 hkw hkb
    rwa [h5.1] at h
  exact h6

/-- C3: for every batch of size `bs` (encoder output `(bs, sl, dim)` with
`sl ≥ 1`, categorical input `(bs, category_encoded_length)`), the forward
method returns a `(bs, 1)` tensor for the score-regression models
`BaseModel` and `BiLSTMModel`, and a `(bs, 4)` tensor (one logit per
stance class, `num_classes = 4`) for `CustomDistilBertModel`. -/
theorem forward_output_shapes
    (config : Config) (pre : DistilBert) (r : LayerInit) (μ : Nat → Nat → ℚ)
    (t : EncodedText) (cv : Mat) (bs sl : Nat) (hsl : 0 < sl)
    (hbert : shape3 (pre.run t.input_ids t.attention_mask) bs sl pre.dim)
    (hcv : shape2 cv bs config.category_encoded_length)
    (embW : Nat → Nat → ℚ) (lstmRun : Mat3 → Mat3) (lstmInit : List (List ℚ))
    (ids : List (List Nat)) (cl : Mat) (bs2 sl2 : Nat) (hsl2 : 0 < sl2)
    (hlstm : shape3 (lstmRun
        ((BiLSTMModel.init config r embW lstmRun lstmInit).embedding.apply
          ids)) bs2 sl2 (config.bilstm_hidden_dim * 2))
    (hcl : shape2 cl bs2 config.category_encoded_length)
    (t3 : EncodedText) (bs3 sl3 : Nat) (hsl3 : 0 < sl3)
    (hbert3 : shape3 (pre.run t3.input_ids t3.attention_mask) bs3 sl3 pre.dim) :
    shape2 (BaseModel.forward (BaseModel.init config pre r) μ t cv) bs 1 ∧
    shape2 (BiLSTMModel.forward (BiLSTMModel.init config r embW lstmRun
      lstmInit) ids cl) bs2 1 ∧
    shape2 (CustomDistilBertModel.forward
      (CustomDistilBertModel.init config pre r) μ t3) bs3 4 := by
  refine ⟨?_, ?_, ?_⟩
  · exact base_forward_shape_general (BaseModel.init config pre r) μ t cv bs sl
      pre.dim config.category_encoder_out hsl hbert
      (mkLinear_weight_length _ _ _ _) (mkLinear_bias_length _ _ _ _)
      (mkLinear_weight_length _ _ _ _) (mkLinear_bias_length _ _ _ _)
      (mkLinear_weight_length _ _ _ _) (mkLinear_bias_length _ _ _ _)
      hcv.1
  · exact bilstm_forward_shape_general _ ids cl bs2 sl2
      (config.bilstm_hidden_dim * 2) config.category_encoder_out hsl2 hlstm
      (mkLinear_weight_length _ _ _ _) (mkLinear_bias_length _ _ _ _)
      (mkLinear_weight_length _ _ _ _) (mkLinear_bias_length _ _ _ _)
      hcl.1
  · exact custom_forward_shape_general _ μ t3 bs3 sl3 pre.dim 4 hsl3 hbert3
      (mkLinear_weight_length _ _ _ _) (mkLinear_bias_length _ _ _ _)
      (mkLinear_weight_length _ _ _ _) (mkLinear_bias_length _ _ _ _)

/-- Witness for C3 at a concrete batch of size 1: output shapes `(1, 1)`,
`(1, 1)` and `(1, 4)`. -/
theorem forward_output_shapes_witness :
    shape2 (BaseModel.forward (BaseModel.init cfgB preA rA) muOne tA [[1]])
      1 1 ∧
    shape2 (BiLSTMModel.forward mLstmA [[0]] [[1]]) 1 1 ∧
    shape2 (CustomDistilBertModel.forward
      (CustomDistilBertModel.init cfgB preA rA) muOne tA) 1 4 :=
  forward_output_shapes cfgB preA rA muOne tA [[1]] 1 1 (by decide)
    (by decide) (by decide) (fun _ _ => 0) (fun _ => [[[0, 0]]]) [[3]]
    [[0]] [[1]] 1 1 (by decide) (by decide) (by decide) tA 1 1 (by decide)
    (by decide)

/-- C9: for every prediction tensor `y_hat` of shape `(bs, 1)` and target
tensor `y` of shape `(bs,)`, the training loss
`F.mse_loss(y_hat.view(-1), y.view(-1))` equals the validation loss
`F.mse_loss(y_hat, y.unsqueeze(1))`: the two steps compute equivalent
formulas. -/
theorem train_val_loss_equal (y_hat : Mat) (y : Vec) (bs : Nat)
    (hy : shape2 y_hat bs 1) (hlen : y.length = bs) :
    BaseModel.trainLoss y_hat y = BaseModel.valLoss y_hat y := by
  unfold BaseModel.trainLoss BaseModel.valLoss mse_loss1 mse_loss2 viewFlat
  rw [mse_sum_flat_eq y_hat y hy.2]
  congr 1
  rw [List.length_flatten]
  simp [numel]

/-- Witness for C9 at a concrete batch: `y_hat = [[1], [2]]`,
`y = [1, 0]`. -/
theorem train_val_loss_equal_witness :
    BaseModel.trainLoss [[1], [2]] [1, 0] =
      BaseModel.valLoss [[1], [2]] [1, 0] :=
  train_val_loss_equal [[1], [2]] [1, 0] 2 (by decide) (by decide)

/-- C7: no method of the three model classes catches, transforms, or
recovers from an error.  For each method of `BaseModel`, `BiLSTMModel` and
`CustomDistilBertModel`, and for each library call its body makes (device
moves, encoder, layers, slicing, losses, argmax, logging, metric compute,
optimizer construction), if that call is the first to raise then the
method fails with exactly that error. -/
theorem no_error_handling (ops : FallibleOps) (st : MetricState)
    (fst : F1State) (mB : BaseModel) (mL : BiLSTMModel)
    (mC : CustomDistilBertModel) (y0 : Vec) (yl0 : List Nat)
    (tx0 : EncodedText) (cv0 : Mat) (ids0 : List (List Nat)) (e : LibErr) :
    ((ops.bertRun tx0.input_ids tx0.attention_mask = Except.error e →
        BaseModel.forwardE ops tx0 cv0 = Except.error e) ∧
     (∀ h, ops.bertRun tx0.input_ids tx0.attention_mask = Except.ok h →
        ops.tailApply (selectPos0 h) = Except.error e →
        BaseModel.forwardE ops tx0 cv0 = Except.error e) ∧
     (∀ h p, ops.bertRun tx0.input_ids tx0.attention_mask = Except.ok h →
        ops.tailApply (selectPos0 h) = Except.ok p →
        ops.catApply cv0 = Except.error e →
        BaseModel.forwardE ops tx0 cv0 = Except.error e) ∧
     (∀ h p c, ops.bertRun tx0.input_ids tx0.attention_mask = Except.ok h →
        ops.tailApply (selectPos0 h) = Except.ok p →
        ops.catApply cv0 = Except.ok c →
        ops.concatDim1 p c = Except.error e →
        BaseModel.forwardE ops tx0 cv0 = Except.error e) ∧
     (∀ h p c k, ops.bertRun tx0.input_ids tx0.attention_mask = Except.ok h →
        ops.tailApply (selectPos0 h) = Except.ok p →
        ops.catApply cv0 = Except.ok c →
        ops.concatDim1 p c = Except.ok k →
        ops.classifierApply k = Except.error e →
        BaseModel.forwardE ops tx0 cv0 = Except.error e)) ∧
    ((ops.toDeviceVec y0 = Except.error e →
        BaseModel.training_stepE ops st y0 tx0 cv0 = Except.error e ∧
        BaseModel.validation_stepE ops st y0 tx0 cv0 = Except.error e) ∧
     (∀ y, ops.toDeviceVec y0 = Except.ok y →
        ops.toDeviceText tx0 = Except.error e →
        BaseModel.training_stepE ops st y0 tx0 cv0 = Except.error e ∧
        BaseModel.validation_stepE ops st y0 tx0 cv0 = Except.error e) ∧
     (∀ y tx, ops.toDeviceVec y0 = Except.ok y →
        ops.toDeviceText tx0 = Except.ok tx →
        ops.toDeviceMat cv0 = Except.error e →
        BaseModel.training_stepE ops st y0 tx0 cv0 = Except.error e ∧
        BaseModel.validation_stepE ops st y0 tx0 cv0 = Except.error e) ∧
     (∀ y tx cv, ops.toDeviceVec y0 = Except.ok y →
        ops.toDeviceText tx0 = Except.ok tx →
        ops.toDeviceMat cv0 = Except.ok cv →
        BaseModel.forwardE ops tx cv = Except.error e →
        BaseModel.training_stepE ops st y0 tx0 cv0 = Except.error e ∧
        BaseModel.validation_stepE ops st y0 tx0 cv0 = Except.error e) ∧
     (∀ y tx cv v, ops.toDeviceVec y0 = Except.ok y →
        ops.toDeviceText tx0 = Except.ok tx →
        ops.toDeviceMat cv0 = Except.ok cv →
        BaseModel.forwardE ops tx cv = Except.ok v →
        ops.mseLoss (viewFlat v) y = Except.error e →
        BaseModel.training_stepE ops st y0 tx0 cv0 = Except.error e) ∧
     (∀ y tx cv v l, ops.toDeviceVec y0 = Except.ok y →
        ops.toDeviceText tx0 = Except.ok tx →
        ops.toDeviceMat cv0 = Except.ok cv →
        BaseModel.forwardE ops tx cv = Except.ok v →
        ops.mseLoss (viewFlat v) y = Except.ok l →
        ops.logScalar l = Except.error e →
        BaseModel.training_stepE ops st y0 tx0 cv0 = Except.error e) ∧
     (∀ y tx cv v, ops.toDeviceVec y0 = Except.ok y →
        ops.toDeviceText tx0 = Except.ok tx →
        ops.toDeviceMat cv0 = Except.ok cv →
        BaseModel.forwardE ops tx cv = Except.ok v →
        ops.mseLoss2 v (unsqueeze1 y) = Except.error e →
        BaseModel.validation_stepE ops st y0 tx0 cv0 = Except.error e) ∧
     (∀ y tx cv v l, ops.toDeviceVec y0 = Except.ok y →
        ops.toDeviceText tx0 = Except.ok tx →
        ops.toDeviceMat cv0 = Except.ok cv →
        BaseModel.forwardE ops tx cv = Except.ok v →
        ops.mseLoss2 v (unsqueeze1 y) = Except.ok l →
        ops.logScalar l = Except.error e →
        BaseModel.validation_stepE ops st y0 tx0 cv0 = Except.error e)) ∧
    ((ops.embedLookup ids0 = Except.error e →
        BiLSTMModel.forwardE ops ids0 cv0 = Except.error e) ∧
     (∀ em, ops.embedLookup ids0 = Except.ok em →
        ops.lstmApply em = Except.error e →
        BiLSTMModel.forwardE ops ids0 cv0 = Except.error e) ∧
     (∀ em lo, ops.embedLookup ids0 = Except.ok em →
        ops.lstmApply em = Except.ok lo →
        ops.catApply cv0 = Except.error e →
        BiLSTMModel.forwardE ops ids0 cv0 = Except.error e) ∧
     (∀ em lo c, ops.embedLookup ids0 = Except.ok em →
        ops.lstmApply em = Except.ok lo →
        ops.catApply cv0 = Except.ok c →
        ops.selectLastOp lo = Except.error e →
        BiLSTMModel.forwardE ops ids0 cv0 = Except.error e) ∧
     (∀ em lo c f, ops.embedLookup ids0 = Except.ok em →
        ops.lstmApply em = Except.ok lo →
        ops.catApply cv0 = Except.ok c →
        ops.selectLastOp lo = Except.ok f →
        ops.concatDim1 f c = Except.error e →
        BiLSTMModel.forwardE ops ids0 cv0 = Except.error e) ∧
     (∀ em lo c f k, ops.embedLookup ids0 = Except.ok em →
        ops.lstmApply em = Except.ok lo →
        ops.catApply cv0 = Except.ok c →
        ops.selectLastOp lo = Except.ok f →
        ops.concatDim1 f c = Except.ok k →
        ops.classifierApply k = Except.error e →
        BiLSTMModel.forwardE ops ids0 cv0 = Except.error e)) ∧
    ((ops.toDeviceVec y0 = Except.error e →
        BiLSTMModel.training_stepE ops st y0 ids0 cv0 = Except.error e ∧
        BiLSTMModel.validation_stepE ops st y0 ids0 cv0 = Except.error e) ∧
     (∀ y, ops.toDeviceVec y0 = Except.ok y →
        ops.toDeviceIds ids0 = Except.error e →
        BiLSTMModel.training_stepE ops st y0 ids0 cv0 = Except.error e ∧
        BiLSTMModel.validation_stepE ops st y0 ids0 cv0 = Except.error e) ∧
     (∀ y ids, ops.toDeviceVec y0 = Except.ok y →
        ops.toDeviceIds ids0 = Except.ok ids →
        ops.toDeviceMat cv0 = Except.error e →
        BiLSTMModel.training_stepE ops st y0 ids0 cv0 = Except.error e ∧
        BiLSTMModel.validation_stepE ops st y0 ids0 cv0 = Except.error e) ∧
     (∀ y ids cl, ops.toDeviceVec y0 = Except.ok y →
        ops.toDeviceIds ids0 = Except.ok ids →
        ops.toDeviceMat cv0 = Except.ok cl →
        BiLSTMModel.forwardE ops ids cl = Except.error e →
        BiLSTMModel.training_stepE ops st y0 ids0 cv0 = Except.error e ∧
        BiLSTMModel.validation_stepE ops st y0 ids0 cv0 = Except.error e) ∧
     (∀ y ids cl v, ops.toDeviceVec y0 = Except.ok y →
        ops.toDeviceIds ids0 = Except.ok ids →
        ops.toDeviceMat cv0 = Except.ok cl →
        BiLSTMModel.forwardE ops ids cl = Except.ok v →
        ops.mseLoss2 v (unsqueeze1 y) = Except.error e →
        BiLSTMModel.training_stepE ops st y0 ids0 cv0 = Except.error e ∧
        BiLSTMModel.validation_stepE ops st y0 ids0 cv0 = Except.error e) ∧
     (∀ y ids cl v l, ops.toDeviceVec y0 = Except.ok y →
        ops.toDeviceIds ids0 = Except.ok ids →
        ops.toDeviceMat cv0 = Except.ok cl →
        BiLSTMModel.forwardE ops ids cl = Except.ok v →
        ops.mseLoss2 v (unsqueeze1 y) = Except.ok l →
        ops.logScalar l = Except.error e →
        BiLSTMModel.training_stepE ops st y0 ids0 cv0 = Except.error e ∧
        BiLSTMModel.validation_stepE ops st y0 ids0 cv0 = Except.error e)) ∧
    ((ops.bertRun tx0.input_ids tx0.attention_mask = Except.error e →
        CustomDistilBertModel.forwardE ops tx0 = Except.error e) ∧
     (∀ h, ops.bertRun tx0.input_ids tx0.attention_mask = Except.ok h →
        ops.tailApply (selectPos0 h) = Except.error e →
        CustomDistilBertModel.forwardE ops tx0 = Except.error e) ∧
     (∀ h p, ops.bertRun tx0.input_ids tx0.attention_mask = Except.ok h →
        ops.tailApply (selectPos0 h) = Except.ok p →
        ops.classifierApply p = Except.error e →
        CustomDistilBertModel.forwardE ops tx0 = Except.error e)) ∧
    ((ops.toDeviceLabels yl0 = Except.error e →
        CustomDistilBertModel.training_stepE ops fst yl0 tx0 = Except.error e ∧
        CustomDistilBertModel.validation_stepE ops fst yl0 tx0 =
          Except.error e ∧
        CustomDistilBertModel.test_stepE ops fst yl0 tx0 = Except.error e) ∧
     (∀ y, ops.toDeviceLabels yl0 = Except.ok y →
        ops.toDeviceText tx0 = Except.error e →
        CustomDistilBertModel.training_stepE ops fst yl0 tx0 = Except.error e ∧
        CustomDistilBertModel.validation_stepE ops fst yl0 tx0 =
          Except.error e ∧
        CustomDistilBertModel.test_stepE ops fst yl0 tx0 = Except.error e) ∧
     (∀ y tx, ops.toDeviceLabels yl0 = Except.ok y →
        ops.toDeviceText tx0 = Except.ok tx →
        CustomDistilBertModel.forwardE ops tx = Except.error e →
        CustomDistilBertModel.training_stepE ops fst yl0 tx0 = Except.error e ∧
        CustomDistilBertModel.validation_stepE ops fst yl0 tx0 =
          Except.error e ∧
        CustomDistilBertModel.test_stepE ops fst yl0 tx0 = Except.error e) ∧
     (∀ y tx v, ops.toDeviceLabels yl0 = Except.ok y →
        ops.toDeviceText tx0 = Except.ok tx →
        CustomDistilBertModel.forwardE ops tx = Except.ok v →
        ops.argmaxRows v = Except.error e →
        CustomDistilBertModel.training_stepE ops fst yl0 tx0 = Except.error e ∧
        CustomDistilBertModel.validation_stepE ops fst yl0 tx0 =
          Except.error e ∧
        CustomDistilBertModel.test_stepE ops fst yl0 tx0 = Except.error e) ∧
     (∀ y tx v pr, ops.toDeviceLabels yl0 = Except.ok y →
        ops.toDeviceText tx0 = Except.ok tx →
        CustomDistilBertModel.forwardE ops tx = Except.ok v →
        ops.argmaxRows v = Except.ok pr →
        ops.ceLoss v y = Except.error e →
        CustomDistilBertModel.training_stepE ops fst yl0 tx0 = Except.error e ∧
        CustomDistilBertModel.validation_stepE ops fst yl0 tx0 =
          Except.error e ∧
        CustomDistilBertModel.test_stepE ops fst yl0 tx0 = Except.error e) ∧
     (∀ y tx v pr l, ops.toDeviceLabels yl0 = Except.ok y →
        ops.toDeviceText tx0 = Except.ok tx →
        CustomDistilBertModel.forwardE ops tx = Except.ok v →
        ops.argmaxRows v = Except.ok pr →
        ops.ceLoss v y = Except.ok l →
        ops.logScalar l = Except.error e →
        CustomDistilBertModel.training_stepE ops fst yl0 tx0 = Except.error e ∧
        CustomDistilBertModel.validation_stepE ops fst yl0 tx0 =
          Except.error e ∧
        CustomDistilBertModel.test_stepE ops fst yl0 tx0 = Except.error e)) ∧
    ((ops.metricCompute st = Except.error e →
        BaseModel.training_epoch_endE ops st = Except.error e ∧
        BaseModel.validation_epoch_endE ops st = Except.error e ∧
        BiLSTMModel.training_epoch_endE ops st = Except.error e ∧
        BiLSTMModel.validation_epoch_endE ops st = Except.error e) ∧
     (∀ v, ops.metricCompute st = Except.ok v →
        ops.logScalar v = Except.error e →
        BaseModel.training_epoch_endE ops st = Except.error e ∧
        BaseModel.validation_epoch_endE ops st = Except.error e ∧
        BiLSTMModel.training_epoch_endE ops st = Except.error e ∧
        BiLSTMModel.validation_epoch_endE ops st = Except.error e) ∧
     (ops.f1Compute fst = Except.error e →
        CustomDistilBertModel.training_epoch_endE ops fst = Except.error e ∧
        CustomDistilBertModel.validation_epoch_endE ops fst = Except.error e ∧
        CustomDistilBertModel.test_epoch_endE ops fst = Except.error e) ∧
     (∀ v, ops.f1Compute fst = Except.ok v →
        ops.logScalar v = Except.error e →
        CustomDistilBertModel.training_epoch_endE ops fst = Except.error e ∧
        CustomDistilBertModel.validation_epoch_endE ops fst = Except.error e ∧
        CustomDistilBertModel.test_epoch_endE ops fst = Except.error e)) ∧
    ((ops.mkAdam mB.parameters mB.learning_rate = Except.error e →
        BaseModel.configure_optimizersE ops mB = Except.error e) ∧
     (ops.mkAdam mL.parameters mL.learning_rate = Except.error e →
        BiLSTMModel.configure_optimizersE ops mL = Except.error e) ∧
     (ops.mkAdam mC.parameters mC.learning_rate = Except.error e →
        CustomDistilBertModel.configure_optimizersE ops mC =
          Except.error e)) := by
  refine ⟨⟨?_, ?_, ?_, ?_, ?_⟩, ⟨?_, ?_, ?_, ?_, ?_, ?_, ?_, ?_⟩,
    ⟨?_, ?_, ?_, ?_, ?_, ?_⟩, ⟨?_, ?_, ?_, ?_, ?_, ?_⟩, ⟨?_, ?_, ?_⟩,
    ⟨?_, ?_, ?_, ?_, ?_, ?_⟩, ⟨?_, ?_, ?_, ?_⟩, ⟨?_, ?_, ?_⟩⟩
  · intro h1
    simp [BaseModel.forwardE, h1, Bind.bind, Except.bind]
  · intro h h1 h2
    simp [BaseModel.forwardE, h1, h2, Bind.bind, Except.bind]
  · intro h p h1 h2 h3
    simp [BaseModel.forwardE, h1, h2, h3, Bind.bind, Except.bind]
  · intro h p c h1 h2 h3 h4
    simp [BaseModel.forwardE, h1, h2, h3, h4, Bind.bind, Except.bind]
  · intro h p c k h1 h2 h3 h4 h5
    simp [BaseModel.forwardE, h1, h2, h3, h4, h5, Bind.bind, Except.bind]
  · intro h1
    exact ⟨by simp [BaseModel.training_stepE, h1, Bind.bind, Except.bind],
      by simp [BaseModel.validation_stepE, h1, Bind.bind, Except.bind]⟩
  · intro y h1 h2
    exact ⟨by simp [BaseModel.training_stepE, h1, h2, Bind.bind, Except.bind],
      by simp [BaseModel.validation_stepE, h1, h2, Bind.bind, Except.bind]⟩
  · intro y tx h1 h2 h3
    exact ⟨by simp [BaseModel.training_stepE, h1, h2, h3, Bind.bind,
        Except.bind],
      by simp [BaseModel.validation_stepE, h1, h2, h3, Bind.bind,
        Except.bind]⟩
  · intro y tx cv h1 h2 h3 h4
    exact ⟨by simp [BaseModel.training_stepE, h1, h2, h3, h4, Bind.bind,
        Except.bind],
      by simp [BaseModel.validation_stepE, h1, h2, h3, h4, Bind.bind,
        Except.bind]⟩
  · intro y tx cv v h1 h2 h3 h4 h5
    simp [BaseModel.training_stepE, h1, h2, h3, h4, h5, Bind.bind,
      Except.bind]
  · intro y tx cv v l h1 h2 h3 h4 h5 h6
    simp [BaseModel.training_stepE, h1, h2, h3, h4, h5, h6, Bind.bind,
      Except.bind]
  · intro y tx cv v h1 h2 h3 h4 h5
    simp [BaseModel.validation_stepE, h1, h2, h3, h4, h5, Bind.bind,
      Except.bind]
  · intro y tx cv v l h1 h2 h3 h4 h5 h6
    simp [BaseModel.validation_stepE, h1, h2, h3, h4, h5, h6, Bind.bind,
      Except.bind]
  · intro h1
    simp [BiLSTMModel.forwardE, h1, Bind.bind, Except.bind]
  · intro em h1 h2
    simp [BiLSTMModel.forwardE, h1, h2, Bind.bind, Except.bind]
  · intro em lo h1 h2 h3
    simp [BiLSTMModel.forwardE, h1, h2, h3, Bind.bind, Except.bind]
  · intro em lo c h1 h2 h3 h4
    simp [BiLSTMModel.forwardE, h1, h2, h3, h4, Bind.bind, Except.bind]
  · intro em lo c f h1 h2 h3 h4 h5
    simp [BiLSTMModel.forwardE, h1, h2, h3, h4, h5, Bind.bind, Except.bind]
  · intro em lo c f k h1 h2 h3 h4 h5 h6
    simp [BiLSTMModel.forwardE, h1, h2, h3, h4, h5, h6, Bind.bind,
      Except.bind]
  · intro h1
    exact ⟨by simp [BiLSTMModel.training_stepE, h1, Bind.bind, Except.bind],
      by simp [BiLSTMModel.validation_stepE, h1, Bind.bind, Except.bind]⟩
  · intro y h1 h2
    exact ⟨by simp [BiLSTMModel.training_stepE, h1, h2, Bind.bind,
        Except.bind],
      by simp [BiLSTMModel.validation_stepE, h1, h2, Bind.bind, Except.bind]⟩
  · intro y ids h1 h2 h3
    exact ⟨by simp [BiLSTMModel.training_stepE, h1, h2, h3, Bind.bind,
        Except.bind],
      by simp [BiLSTMModel.validation_stepE, h1, h2, h3, Bind.bind,
        Except.bind]⟩
  · intro y ids cl h1 h2 h3 h4
    exact ⟨by simp [BiLSTMModel.training_stepE, h1, h2, h3, h4, Bind.bind,
        Except.bind],
      by simp [BiLSTMModel.validation_stepE, h1, h2, h3, h4, Bind.bind,
        Except.bind]⟩
  · intro y ids cl v h1 h2 h3 h4 h5
    exact ⟨by simp [BiLSTMModel.training_stepE, h1, h2, h3, h4, h5,
        Bind.bind, Except.bind],
      by simp [BiLSTMModel.validation_stepE, h1, h2, h3, h4, h5, Bind.bind,
        Except.bind]⟩
  · intro y ids cl v l h1 h2 h3 h4 h5 h6
    exact ⟨by simp [BiLSTMModel.training_stepE, h1, h2, h3, h4, h5, h6,
        Bind.bind, Except.bind],
      by simp [BiLSTMModel.validation_stepE, h1, h2, h3, h4, h5, h6,
        Bind.bind, Except.bind]⟩
  · intro h1
    simp [CustomDistilBertModel.forwardE, h1, Bind.bind, Except.bind]
  · intro h h1 h2
    simp [CustomDistilBertModel.forwardE, h1, h2, Bind.bind, Except.bind]
  · intro h p h1 h2 h3
    simp [CustomDistilBertModel.forwardE, h1, h2, h3, Bind.bind, Except.bind]
  · intro h1
    exact ⟨by simp [CustomDistilBertModel.training_stepE, h1, Bind.bind,
        Except.bind],
      by simp [CustomDistilBertModel.validation_stepE, h1, Bind.bind,
        Except.bind],
      by simp [CustomDistilBertModel.test_stepE, h1, Bind.bind, Except.bind]⟩
  · intro y h1 h2
    exact ⟨by simp [CustomDistilBertModel.training_stepE, h1, h2, Bind.bind,
        Except.bind],
      by simp [CustomDistilBertModel.validation_stepE, h1, h2, Bind.bind,
        Except.bind],
      by simp [CustomDistilBertModel.test_stepE, h1, h2, Bind.bind,
        Except.bind]⟩
  · intro y tx h1 h2 h3
    exact ⟨by simp [CustomDistilBertModel.training_stepE, h1, h2, h3,
        Bind.bind, Except.bind],
      by simp [CustomDistilBertModel.validation_stepE, h1, h2, h3, Bind.bind,
        Except.bind],
      by simp [CustomDistilBertModel.test_stepE, h1, h2, h3, Bind.bind,
        Except.bind]⟩
  · intro y tx v h1 h2 h3 h4
    exact ⟨by simp [CustomDistilBertModel.training_stepE, h1, h2, h3, h4,
        Bind.bind, Except.bind],
      by simp [CustomDistilBertModel.validation_stepE, h1, h2, h3, h4,
        Bind.bind, Except.bind],
      by simp [CustomDistilBertModel.test_stepE, h1, h2, h3, h4, Bind.bind,
        Except.bind]⟩
  · intro y tx v pr h1 h2 h3 h4 h5
    exact ⟨by simp [CustomDistilBertModel.training_stepE, h1, h2, h3, h4, h5,
        Bind.bind, Except.bind],
      by simp [CustomDistilBertModel.validation_stepE, h1, h2, h3, h4, h5,
        Bind.bind, Except.bind],
      by simp [CustomDistilBertModel.test_stepE, h1, h2, h3, h4, h5,
        Bind.bind, Except.bind]⟩
  · intro y tx v pr l h1 h2 h3 h4 h5 h6
    exact ⟨by simp [CustomDistilBertModel.training_stepE, h1, h2, h3, h4, h5,
        h6, Bind.bind, Except.bind],
      by simp [CustomDistilBertModel.validation_stepE, h1, h2, h3, h4, h5,
        h6, Bind.bind, Except.bind],
      by simp [CustomDistilBertModel.test_stepE, h1, h2, h3, h4, h5, h6,
        Bind.bind, Except.bind]⟩
  · intro h1
    exact ⟨by simp [BaseModel.training_epoch_endE, h1, Bind.bind,
        Except.bind],
      by simp [BaseModel.validation_epoch_endE, h1, Bind.bind, Except.bind],
      by simp [BiLSTMModel.training_epoch_endE, h1, Bind.bind, Except.bind],
      by simp [BiLSTMModel.validation_epoch_endE, h1, Bind.bind,
        Except.bind]⟩
  · intro v h1 h2
    exact ⟨by simp [BaseModel.training_epoch_endE, h1, h2, Bind.bind,
        Except.bind],
      by simp [BaseModel.validation_epoch_endE, h1, h2, Bind.bind,
        Except.bind],
      by simp [BiLSTMModel.training_epoch_endE, h1, h2, Bind.bind,
        Except.bind],
      by simp [BiLSTMModel.validation_epoch_endE, h1, h2, Bind.bind,
        Except.bind]⟩
  · intro h1
    exact ⟨by simp [CustomDistilBertModel.training_epoch_endE, h1, Bind.bind,
        Except.bind],
      by simp [CustomDistilBertModel.validation_epoch_endE, h1, Bind.bind,
        Except.bind],
      by simp [CustomDistilBertModel.test_epoch_endE, h1, Bind.bind,
        Except.bind]⟩
  · intro v h1 h2
    exact ⟨by simp [CustomDistilBertModel.training_epoch_endE, h1, h2,
        Bind.bind, Except.bind],
      by simp [CustomDistilBertModel.validation_epoch_endE, h1, h2,
        Bind.bind, Except.bind],
      by simp [CustomDistilBertModel.test_epoch_endE, h1, h2, Bind.bind,
        Except.bind]⟩
  · intro h1
    simp [BaseModel.configure_optimizersE, h1]
  · intro h1
    simp [BiLSTMModel.configure_optimizersE, h1]
  · intro h1
    simp [CustomDistilBertModel.configure_optimizersE, h1]

/-- Fallible ops where every library call succeeds, with canonical
values. -/
def opsOK : FallibleOps :=
  { toDeviceVec := fun v => Except.ok v
    toDeviceText := fun t => Except.ok t
    toDeviceMat := fun m => Except.ok m
    toDeviceIds := fun i => Except.ok i
    toDeviceLabels := fun l => Except.ok l
    bertRun := fun _ _ => Except.ok [[[0]]]
    tailApply := fun m => Except.ok m
    catApply := fun m => Except.ok m
    concatDim1 := fun a b => Except.ok (hcat a b)
    classifierApply := fun m => Except.ok m
    embedLookup := fun _ => Except.ok [[[0]]]
    lstmApply := fun m => Except.ok m
    selectLastOp := fun m => Except.ok (selectLast m)
    mseLoss := fun _ _ => Except.ok 0
    mseLoss2 := fun _ _ => Except.ok 0
    ceLoss := fun _ _ => Except.ok 0
    argmaxRows := fun _ => Except.ok [0]
    logScalar := fun _ => Except.ok ()
    metricCompute := fun _ => Except.ok 0
    f1Compute := fun _ => Except.ok 0
    mkAdam := fun p l => Except.ok { params := p, lr := l } }

/-- Ops where the first `.to(self.device)` move raises a device error. -/
def opsDevFail : FallibleOps :=
  { opsOK with toDeviceVec := fun _ => Except.error LibErr.deviceError }

/-- Ops where `torch.cat` raises a shape mismatch. -/
def opsFailConcat : FallibleOps :=
  { opsOK with concatDim1 := fun _ _ => Except.error LibErr.shapeMismatch }

/-- Ops where the BiLSTM layer raises a shape mismatch. -/
def opsFailLstm : FallibleOps :=
  { opsOK with lstmApply := fun _ => Except.error LibErr.shapeMismatch }

/-- Ops where `F.cross_entropy` raises a shape mismatch. -/
def opsFailCE : FallibleOps :=
  { opsOK with ceLoss := fun _ _ => Except.error LibErr.shapeMismatch }

/-- Ops where the F1 metric compute raises a device error. -/
def opsFailF1 : FallibleOps :=
  { opsOK with f1Compute := fun _ => Except.error LibErr.deviceError }

/-- Ops where the `Adam` constructor raises a device error. -/
def opsFailAdam : FallibleOps :=
  { opsOK with mkAdam := fun _ _ => Except.error LibErr.deviceError }

/-- An empty `MeanSquaredError` accumulator. -/
def stA : MetricState := { sum_sq := 0, count := 0 }

/-- An empty `F1` accumulator. -/
def fstA : F1State := { pairs := [] }

/-- Witness for C7 at concrete inputs: a failing device move, `torch.cat`,
BiLSTM layer, cross-entropy, metric compute and Adam constructor each
surface verbatim from the enclosing method, across all three classes. -/
theorem no_error_handling_witness :
    (BaseModel.training_stepE opsDevFail stA [1] tA [[1]] =
       Except.error LibErr.deviceError ∧
     BaseModel.validation_stepE opsDevFail stA [1] tA [[1]] =
       Except.error LibErr.deviceError) ∧
    BaseModel.forwardE opsFailConcat tA [[1]] =
      Except.error LibErr.shapeMismatch ∧
    (BiLSTMModel.training_stepE opsFailLstm stA [1] [[0]] [[1]] =
       Except.error LibErr.shapeMismatch ∧
     BiLSTMModel.validation_stepE opsFailLstm stA [1] [[0]] [[1]] =
       Except.error LibErr.shapeMismatch) ∧
    (CustomDistilBertModel.training_stepE opsFailCE fstA [0] tA =
       Except.error LibErr.shapeMismatch ∧
     CustomDistilBertModel.validation_stepE opsFailCE fstA [0] tA =
       Except.error LibErr.shapeMismatch ∧
     CustomDistilBertModel.test_stepE opsFailCE fstA [0] tA =
       Except.error LibErr.shapeMismatch) ∧
    (CustomDistilBertModel.training_epoch_endE opsFailF1 fstA =
       Except.error LibErr.deviceError ∧
     CustomDistilBertModel.validation_epoch_endE opsFailF1 fstA =
       Except.error LibErr.deviceError ∧
     CustomDistilBertModel.test_epoch_endE opsFailF1 fstA =
       Except.error LibErr.deviceError) ∧
    CustomDistilBertModel.configure_optimizersE opsFailAdam mCustomA =
      Except.error LibErr.deviceError := by
  refine ⟨?_, ?_, ?_, ?_, ?_, ?_⟩
  · exact (no_error_handling opsDevFail stA fstA mBaseA mLstmA mCustomA
      [1] [0] tA [[1]] [[0]] LibErr.deviceError).2.1.1 rfl
  · exact (no_error_handling opsFailConcat stA fstA mBaseA mLstmA mCustomA
      [1] [0] tA [[1]] [[0]] LibErr.shapeMismatch).1.2.2.2.1
      [[[0]]] [[0]] [[1]] rfl rfl rfl rfl
  · exact (no_error_handling opsFailLstm stA fstA mBaseA mLstmA mCustomA
      [1] [0] tA [[1]] [[0]] LibErr.shapeMismatch).2.2.2.1.2.2.2.1
      [1] [[0]] [[1]] rfl rfl rfl rfl
  · exact (no_error_handling opsFailCE stA fstA mBaseA mLstmA mCustomA
      [1] [0] tA [[1]] [[0]] LibErr.shapeMismatch).2.2.2.2.2.1.2.2.2.2.1
      [0] tA [[0]] [0] rfl rfl rfl rfl rfl
  · exact (no_error_handling opsFailF1 stA fstA mBaseA mLstmA mCustomA
      [1] [0] tA [[1]] [[0]] LibErr.deviceError).2.2.2.2.2.2.1.2.2.1 rfl
  · exact (no_error_handling opsFailAdam stA fstA mBaseA mLstmA mCustomA
      [1] [0] tA [[1]] [[0]] LibErr.deviceError).2.2.2.2.2.2.2.2.2 rfl
